import Mathlib

/-!
# Snake: a shallow embedding of `src/main.cpp`

The game logic of `main.cpp` (grid arithmetic, the snake, the collision tests,
food placement and the event handling of the game loop) is translated into pure
Lean functions, one per C++ function, keeping the names of the source.

Modelling conventions:

* `int` values are `Int`; the results of `++`, `--` and `+=` on `int` are brought
  back into the 32-bit two's complement range by `wrapInt32` (signed overflow is
  undefined in C++; the usual compilers wrap).  `%` on `int` is the truncated
  remainder `Int.tmod`.
* `vector<Point>` is `List Point`, oldest element first; `push_back` appends at
  the end and `erase(begin())` drops the first element.
* An object is a structure and a member function maps the old object to the new.
* `rand()` is an explicit list of the values it returns, consumed from the front.
* `exit(1)` ends a call with the outcome `Outcome.exited`, which records the state in
  which `exit` was called; a call that returns ends with `Outcome.done`.
* The `static Clock clock` of `Game::update` is the field `clock` of the game state; a
  `Uint32` sum is reduced modulo `2^32`.
* The key presses that `Game::getEvents` polls are an explicit list.
* The rendering half of the program (SDL) is not modelled.
-/

namespace SnakeGame

/-- Reduction of an integer to the range of a 32-bit two's complement `int`. -/
def wrapInt32 (z : Int) : Int :=
  (z + 2147483648) % 4294967296 - 2147483648

/-- The `Point` of the source: a pair of `int` coordinates. -/
structure Point where
  x : Int := 0
  y : Int := 0
deriving DecidableEq, Repr

namespace CONFIG
namespace GAME

/-- The constant `const Uint32 TIME_BEFORE_SNAKE_MOVE = 1000.0/25`. -/
def TIME_BEFORE_SNAKE_MOVE : Nat := 40

def FOOD_START_POSITION : Point := ⟨4, 4⟩

def SNAKE_START_POSITION : Point := ⟨0, 0⟩

/-- The constant `const Uint8 SNAKE_START_LENGTH = 7`. -/
def SNAKE_START_LENGTH : Nat := 7

namespace GRID

def GRID_COLUMN_COUNT : Int := 20

def GRID_ROW_COUNT : Int := 20

end GRID
end GAME
end CONFIG

inductive Direction where
  | UP
  | LEFT
  | DOWN
  | RIGHT
deriving DecidableEq, Repr

inductive EventType where
  | PRESSED_UP_KEY
  | PRESSED_LEFT_KEY
  | PRESSED_DOWN_KEY
  | PRESSED_RIGHT_KEY
deriving DecidableEq, Repr

namespace Math

/-- The function `Math::getAlgebraicRemainder`: `number %= module; if (number < 0) number += module;`. -/
def getAlgebraicRemainder (number modulus : Int) : Int :=
  let number := Int.tmod number modulus
  if number < 0 then wrapInt32 (number + modulus) else number

end Math

/-- The data members of `class Snake`. -/
structure Snake where
  headLocation : Point
  body : List Point
  direction : Direction
  toGrow : Bool
deriving DecidableEq, Repr

namespace Snake

/-- The function `Snake::getCollisionGeometry`: the head, then the body cells in order. -/
def getCollisionGeometry (s : Snake) : List Point :=
  s.body.foldl (fun results bodyLocation => results ++ [bodyLocation]) [s.headLocation]

/-- The function `Snake::setValidDirectionFrom`: the effect of the `switch` on the object.
The source declares the result type `Direction` but returns nothing, and the only caller
drops the result; the `default:` branch is empty and no value of the enumeration reaches
it. -/
def setValidDirectionFrom (s : Snake) (direction : Direction) : Snake :=
  match direction with
  | Direction.UP =>
      if s.direction ≠ Direction.DOWN then { s with direction := Direction.UP } else s
  | Direction.LEFT =>
      if s.direction ≠ Direction.RIGHT then { s with direction := Direction.LEFT } else s
  | Direction.RIGHT =>
      if s.direction ≠ Direction.LEFT then { s with direction := Direction.RIGHT } else s
  | Direction.DOWN =>
      if s.direction ≠ Direction.UP then { s with direction := Direction.DOWN } else s

/-- The function `Snake::moveHead`: the `switch` is on `this->direction`; the argument is
not read.  The `DOWN` case falls through into the empty `default:` branch. -/
def moveHead (s : Snake) (_direction : Direction) : Snake :=
  match s.direction with
  | Direction.UP =>
      { s with headLocation := { s.headLocation with y := wrapInt32 (s.headLocation.y - 1) } }
  | Direction.LEFT =>
      { s with headLocation := { s.headLocation with x := wrapInt32 (s.headLocation.x - 1) } }
  | Direction.RIGHT =>
      { s with headLocation := { s.headLocation with x := wrapInt32 (s.headLocation.x + 1) } }
  | Direction.DOWN =>
      { s with headLocation := { s.headLocation with y := wrapInt32 (s.headLocation.y + 1) } }

/-- The function `Snake::removeTail`: `body.erase(body.begin())`. -/
def removeTail (s : Snake) : Snake :=
  { s with body := s.body.eraseIdx 0 }

/-- The function `Snake::growInHeadDirection`: `body.push_back(headLocation); moveHead(direction);`. -/
def growInHeadDirection (s : Snake) : Snake :=
  let s1 := { s with body := s.body ++ [s.headLocation] }
  s1.moveHead s1.direction

/-- The function `Snake::warpAroundScreenIfNeeded`: first the column, then the row. -/
def warpAroundScreenIfNeeded (s : Snake) : Snake :=
  let s1 := { s with headLocation := { s.headLocation with
    x := Math.getAlgebraicRemainder s.headLocation.x CONFIG.GAME.GRID.GRID_COLUMN_COUNT } }
  { s1 with headLocation := { s1.headLocation with
    y := Math.getAlgebraicRemainder s1.headLocation.y CONFIG.GAME.GRID.GRID_ROW_COUNT } }

/-- The loop of the constructor: `while (body.size() < size) growInHeadDirection();`. -/
def growWhileShorter (size : Nat) (s : Snake) : Snake :=
  if s.body.length < size then growWhileShorter size s.growInHeadDirection else s
termination_by size - s.body.length
decreasing_by
  simp only [growInHeadDirection, moveHead]
  split <;> simp only [List.length_append, List.length_singleton] <;> omega

/-- The constructor `Snake::Snake(Uint8 size)`; the source's default for `size` is
`CONFIG::GAME::SNAKE_START_LENGTH`. -/
def new (size : Nat) : Snake :=
  growWhileShorter size
    { headLocation := CONFIG.GAME.SNAKE_START_POSITION, body := [],
      direction := Direction.RIGHT, toGrow := false }

/-- The function `Snake::trySetMovindDirection`. -/
def trySetMovindDirection (s : Snake) (direction : Direction) : Snake :=
  s.setValidDirectionFrom direction

/-- The function `Snake::moveAndGrowIfSet`. -/
def moveAndGrowIfSet (s : Snake) : Snake :=
  let s1 := s.growInHeadDirection
  let s2 := if s1.toGrow then { s1 with toGrow := false } else s1.removeTail
  s2.warpAroundScreenIfNeeded

/-- The function `Snake::prepareToGrowOnNextMove`. -/
def prepareToGrowOnNextMove (s : Snake) : Snake :=
  { s with toGrow := true }

end Snake

namespace Collision

/-- The function `Collision::didCollide(ICollidable&, ICollidable&)` on the two collision geometries:
the nested loops return `true` at the first pair of cells with equal `x` and equal `y`. -/
def didCollide (pointsInFirst pointsInSecond : List Point) : Bool :=
  pointsInFirst.any fun p1 =>
    pointsInSecond.any fun p2 => p1.x == p2.x && p1.y == p2.y

/-- The function `Collision::didCollide(ICollidable&)` on the collision geometry: both loops run over the
same vector, so `&p1 != &p2` holds exactly when the two positions differ. -/
def didCollideSelf (pointsInSelf : List Point) : Bool :=
  pointsInSelf.enum.any fun ip1 =>
    pointsInSelf.enum.any fun ip2 =>
      ip1.1 != ip2.1 && ip1.2.x == ip2.2.x && ip1.2.y == ip2.2.y

end Collision

/-- The data member of `class Food`. -/
structure Food where
  location : Point
deriving DecidableEq, Repr

namespace Food

/-- The function `Food::getCollisionGeometry`. -/
def getCollisionGeometry (f : Food) : List Point :=
  [f.location]

/-- The constructor `Food::Food()`. -/
def new : Food :=
  { location := CONFIG.GAME.FOOD_START_POSITION }

/-- The function `Food::setRandomWithoutColliding` against the geometry `other`, reading the results of
`rand()` from `rands`.  Each round of the `do ... while` takes two values; the result is the
food when the loop condition first fails, with the unread values, and `none` when `rands`
ends while the loop is still running. -/
def setRandomWithoutColliding (f : Food) (other : List Point) :
    List Nat → Option (Food × List Nat)
  | r1 :: r2 :: rands =>
      let f1 : Food := { f with location := { f.location with
        x := Int.tmod (Int.ofNat r1) CONFIG.GAME.GRID.GRID_COLUMN_COUNT } }
      let f2 : Food := { f1 with location := { f1.location with
        y := Int.tmod (Int.ofNat r2) CONFIG.GAME.GRID.GRID_ROW_COUNT } }
      if Collision.didCollide f2.getCollisionGeometry other then
        setRandomWithoutColliding f2 other rands
      else
        some (f2, rands)
  | _ => none

end Food

structure Event where
  eventType : EventType
deriving DecidableEq, Repr

/-- The game state: the members `snake`, `food`, `raisedEvents` of `class Game` and the
`static Clock clock` of `Game::update` (a `Uint32` number of milliseconds). -/
structure Game where
  snake : Snake
  food : Food
  raisedEvents : List Event
  clock : Nat
deriving DecidableEq, Repr

namespace Game

/-- The body of the loop of `Game::handleEvents` for one event. -/
def handleEvent (snake : Snake) (e : Event) : Snake :=
  match e.eventType with
  | EventType.PRESSED_DOWN_KEY => snake.trySetMovindDirection Direction.DOWN
  | EventType.PRESSED_UP_KEY => snake.trySetMovindDirection Direction.UP
  | EventType.PRESSED_LEFT_KEY => snake.trySetMovindDirection Direction.LEFT
  | EventType.PRESSED_RIGHT_KEY => snake.trySetMovindDirection Direction.RIGHT

/-- The function `Game::handleEvents`: every raised event in order, then `raisedEvents.clear()`. -/
def handleEvents (g : Game) : Game :=
  { g with snake := g.raisedEvents.foldl handleEvent g.snake, raisedEvents := [] }

/-- The constructor `Game::Game`: the default snake and food, no event raised, the clock at zero. -/
def new : Game :=
  { snake := Snake.new CONFIG.GAME.SNAKE_START_LENGTH, food := Food.new, raisedEvents := [], clock := 0 }

end Game

/-- The cells that a sequence of `rand()` results denotes when read two at a time as
`(rand() % 20, rand() % 20)`; an unpaired last value denotes nothing.  Used to state which
cell the food placement picks. -/
def sampledCells : List Nat → List Point
  | r1 :: r2 :: rands => ⟨((r1 % 20 : Nat) : Int), ((r2 % 20 : Nat) : Int)⟩ :: sampledCells rands
  | _ => []

/-- The 180-degree reverse of a heading: Up/Down and Left/Right. -/
def Direction.reverse : Direction → Direction
  | Direction.UP => Direction.DOWN
  | Direction.DOWN => Direction.UP
  | Direction.LEFT => Direction.RIGHT
  | Direction.RIGHT => Direction.LEFT

namespace Clock

/-- The function `Clock::increaseByTime` on the `Uint32` member `time`: `time += timeToAdd`. -/
def increaseByTime (time timeToAdd : Nat) : Nat :=
  (time + timeToAdd) % 4294967296

/-- The function `Clock::reset`: `time = 0`. -/
def reset (_time : Nat) : Nat :=
  0

end Clock

/-- The ways a call of `Game::handleCollisions` or `Game::update` ends: `exit(code)` was
called, with the game state at that moment; or the values of `rand()` that were supplied ran
out while the loop of `Food::setRandomWithoutColliding` was still running; or the call
returned, leaving a game state and the unread values of `rand()`. -/
inductive Outcome where
  | exited (code : Nat) (atExit : Game)
  | outOfSamples
  | done (g : Game) (rands : List Nat)
deriving DecidableEq, Repr

namespace Game

/-- The function `Game::getEvents` for a poll that meets the key presses `polled` and no quit
request: one `push_back` per key press. -/
def getEvents (g : Game) (polled : List Event) : Game :=
  { g with raisedEvents := g.raisedEvents ++ polled }

/-- The function `Game::handleCollisions`, reading the results of `rand()` from `rands`. -/
def handleCollisions (g : Game) (rands : List Nat) : Outcome :=
  if Collision.didCollideSelf g.snake.getCollisionGeometry then
    Outcome.exited 1 g
  else if Collision.didCollide g.snake.getCollisionGeometry g.food.getCollisionGeometry then
    let snake := g.snake.prepareToGrowOnNextMove
    match g.food.setRandomWithoutColliding snake.getCollisionGeometry rands with
    | none => Outcome.outOfSamples
    | some (food, rest) => Outcome.done { g with snake := snake, food := food } rest
  else
    Outcome.done g rands

/-- The timer part of `Game::update`, after the two handlers. -/
def moveOnTimer (g : Game) (deltaTime : Nat) : Game :=
  if g.clock > CONFIG.GAME.TIME_BEFORE_SNAKE_MOVE then
    { g with snake := g.snake.moveAndGrowIfSet, clock := Clock.reset g.clock }
  else
    { g with clock := Clock.increaseByTime g.clock deltaTime }

/-- The function `Game::update`: `handleCollisions(); handleEvents();`, then the timer. -/
def update (g : Game) (deltaTime : Nat) (rands : List Nat) : Outcome :=
  match g.handleCollisions rands with
  | Outcome.exited code atExit => Outcome.exited code atExit
  | Outcome.outOfSamples => Outcome.outOfSamples
  | Outcome.done g1 rest => Outcome.done (g1.handleEvents.moveOnTimer deltaTime) rest

/-- The iteration in the order in which the specification words it: the raised heading
requests are applied first, the collisions are resolved second, then the timer.  This is
not a function of the source; it is what `update` is compared with. -/
def updateEventsFirst (g : Game) (deltaTime : Nat) (rands : List Nat) : Outcome :=
  match g.handleEvents.handleCollisions rands with
  | Outcome.exited code atExit => Outcome.exited code atExit
  | Outcome.outOfSamples => Outcome.outOfSamples
  | Outcome.done g1 rest => Outcome.done (g1.moveOnTimer deltaTime) rest

/-- The game states that the loop of `Game::run` reaches at the end of an iteration: the
constructed game, and every state that `update` returns after `getEvents` on a reachable
state, for any polled key presses, elapsed time and values of `rand()`. -/
inductive Reachable : Game → Prop where
  | init : Reachable Game.new
  | step (g g' : Game) (polled : List Event) (deltaTime : Nat) (rands rest : List Nat) :
      Reachable g → (g.getEvents polled).update deltaTime rands = Outcome.done g' rest →
      Reachable g'

/-- The pairs of snake and food reached from those of the constructed game by any sequence
of heading requests, growth requests, advances and food relocations (against any obstacle,
for any values of `rand()` on which the relocation stops). -/
inductive OpReachable : Snake → Food → Prop where
  | init : OpReachable Game.new.snake Game.new.food
  | heading (s : Snake) (f : Food) (d : Direction) :
      OpReachable s f → OpReachable (s.trySetMovindDirection d) f
  | growth (s : Snake) (f : Food) : OpReachable s f → OpReachable s.prepareToGrowOnNextMove f
  | advance (s : Snake) (f : Food) : OpReachable s f → OpReachable s.moveAndGrowIfSet f
  | relocate (s : Snake) (f f' : Food) (other : List Point) (rands rest : List Nat) :
      OpReachable s f → f.setRandomWithoutColliding other rands = some (f', rest) →
      OpReachable s f'

end Game

/-- The snake states reached from the freshly constructed snake by any sequence of calls of
`trySetMovindDirection`, `prepareToGrowOnNextMove` and `moveAndGrowIfSet`. -/
inductive Snake.Reachable : Snake → Prop where
  | init : Snake.Reachable (Snake.new CONFIG.GAME.SNAKE_START_LENGTH)
  | heading (s : Snake) (d : Direction) :
      Snake.Reachable s → Snake.Reachable (s.trySetMovindDirection d)
  | growth (s : Snake) : Snake.Reachable s → Snake.Reachable s.prepareToGrowOnNextMove
  | advance (s : Snake) : Snake.Reachable s → Snake.Reachable s.moveAndGrowIfSet

/-- A cell of the grid: `0 <= x < 20` and `0 <= y < 20`. -/
def Point.inGrid (p : Point) : Prop :=
  0 ≤ p.x ∧ p.x < 20 ∧ 0 ≤ p.y ∧ p.y < 20

/-- Toroidal adjacency of two cells: equal on one axis and exactly one cell apart, modulo
the grid size 20, on the other. -/
def Point.toroidalAdjacent (p q : Point) : Prop :=
  (p.y = q.y ∧ ((q.x - p.x) % 20 = 1 ∨ (p.x - q.x) % 20 = 1)) ∨
    (p.x = q.x ∧ ((q.y - p.y) % 20 = 1 ∨ (p.y - q.y) % 20 = 1))

instance (p : Point) : Decidable p.inGrid :=
  inferInstanceAs (Decidable (0 ≤ p.x ∧ p.x < 20 ∧ 0 ≤ p.y ∧ p.y < 20))

instance (p q : Point) : Decidable (p.toroidalAdjacent q) :=
  inferInstanceAs (Decidable
    ((p.y = q.y ∧ ((q.x - p.x) % 20 = 1 ∨ (p.x - q.x) % 20 = 1)) ∨
      (p.x = q.x ∧ ((q.y - p.y) % 20 = 1 ∨ (p.y - q.y) % 20 = 1))))

/-! ## Grid arithmetic -/

/-- The truncated remainder by a positive modulus lies above the negated modulus. -/
theorem tmod_gt_neg (a b : Int) (hb : 0 < b) : -b < Int.tmod a b := by
  obtain ⟨j, rfl⟩ := Int.eq_succ_of_zero_lt hb
  cases a with
  | ofNat k =>
      have h : 0 ≤ Int.tmod (Int.ofNat k) ((j.succ : Nat) : Int) :=
        Int.tmod_nonneg _ (Int.ofNat_nonneg k)
      omega
  | negSucc k =>
      have h : Int.tmod (Int.negSucc k) ((j.succ : Nat) : Int)
          = -Int.ofNat ((k + 1) % (j + 1)) := rfl
      have h2 : (k + 1) % (j + 1) < j + 1 := Nat.mod_lt (k + 1) (Nat.succ_pos j)
      rw [h]
      simp only [Int.ofNat_eq_coe, Nat.succ_eq_add_one]
      omega

/-- On a positive 32-bit modulus `getAlgebraicRemainder` is the Euclidean remainder. -/
theorem getAlgebraicRemainder_eq_emod (n m : Int) (hm : 0 < m) (hm32 : m ≤ 2147483647) :
    Math.getAlgebraicRemainder n m = n % m := by
  have h1 : Int.tmod n m + m * Int.tdiv n m = n := Int.tmod_add_tdiv n m
  have hlt : Int.tmod n m < m := Int.tmod_lt_of_pos n hm
  have hgt : -m < Int.tmod n m := tmod_gt_neg n m hm
  unfold Math.getAlgebraicRemainder
  simp only
  split
  · next hneg =>
    have hw : wrapInt32 (Int.tmod n m + m) = Int.tmod n m + m := by
      unfold wrapInt32
      omega
    rw [hw]
    have h2 : n = (Int.tmod n m + m) + m * (Int.tdiv n m - 1) := by
      rw [Int.mul_sub, Int.mul_one]; omega
    conv_rhs => rw [h2]
    rw [Int.add_mul_emod_self_left, Int.emod_eq_of_lt (by omega) (by omega)]
  · next hpos =>
    conv_rhs => rw [← h1]
    rw [Int.add_mul_emod_self_left, Int.emod_eq_of_lt (by omega) hlt]

/-- C1: for every integer `n` (in particular every 32-bit one) and every positive 32-bit
modulus `m`, `Math::getAlgebraicRemainder(n, m)` is a value `r` with `0 <= r < m` that is
congruent to `n` modulo `m`; it is the Euclidean remainder of `n` by `m`, also for
negative `n`. -/
theorem getAlgebraicRemainder_euclidean (n m : Int) (hm : 0 < m) (hm32 : m ≤ 2147483647) :
    0 ≤ Math.getAlgebraicRemainder n m ∧ Math.getAlgebraicRemainder n m < m ∧
      Int.ModEq m (Math.getAlgebraicRemainder n m) n ∧
      Math.getAlgebraicRemainder n m = n % m := by
  have h := getAlgebraicRemainder_eq_emod n m hm hm32
  refine ⟨?_, ?_, ?_, h⟩
  · rw [h]; exact Int.emod_nonneg n (by omega)
  · rw [h]; exact Int.emod_lt_of_pos n hm
  · rw [h]; exact Int.emod_emod_of_dvd n (dvd_refl m)

/-- Witness of C1 at `n = -41`, `m = 20`: the remainder is `19`. -/
theorem getAlgebraicRemainder_euclidean_witness :
    Math.getAlgebraicRemainder (-41) 20 = 19 ∧
      (0 ≤ Math.getAlgebraicRemainder (-41) 20 ∧ Math.getAlgebraicRemainder (-41) 20 < 20 ∧
        Int.ModEq 20 (Math.getAlgebraicRemainder (-41) 20) (-41) ∧
        Math.getAlgebraicRemainder (-41) 20 = (-41) % 20) :=
  ⟨by decide, getAlgebraicRemainder_euclidean (-41) 20 (by decide) (by decide)⟩

/-! ## The snake -/

/-- The snake built by the constructor for the configured length: the seven body cells
`(0,0) .. (6,0)`, the head at `(7,0)`, heading right, no growth pending. -/
theorem Snake.new_start :
    Snake.new CONFIG.GAME.SNAKE_START_LENGTH =
      { headLocation := ⟨7, 0⟩,
        body := [⟨0, 0⟩, ⟨1, 0⟩, ⟨2, 0⟩, ⟨3, 0⟩, ⟨4, 0⟩, ⟨5, 0⟩, ⟨6, 0⟩],
        direction := Direction.RIGHT, toGrow := false } := by
  unfold Snake.new CONFIG.GAME.SNAKE_START_LENGTH
  iterate 8 rw [Snake.growWhileShorter]
  rfl

/-- C2 (as stated, refuted): after one `moveAndGrowIfSet` the starting snake does not have
its head at `(1,0)` with `(0,0)` as newest body cell. -/
theorem start_snake_advance_refuted :
    ¬ ((Snake.new CONFIG.GAME.SNAKE_START_LENGTH).moveAndGrowIfSet.headLocation = ⟨1, 0⟩ ∧
        (Snake.new CONFIG.GAME.SNAKE_START_LENGTH).moveAndGrowIfSet.body.length = 7 ∧
        (Snake.new CONFIG.GAME.SNAKE_START_LENGTH).moveAndGrowIfSet.body.getLast? =
          some ⟨0, 0⟩) := by
  rw [Snake.new_start]
  decide

/-- C2 (amended): the constructor grows the snake from `(0,0)` to the right, so the starting
snake has its head at `(7,0)` over the body `(0,0) .. (6,0)`; after exactly one
`moveAndGrowIfSet` its head is at `(8,0)` and its body has length 7, with oldest entry
`(1,0)` and newest entry `(7,0)`. -/
theorem start_snake_advance :
    (Snake.new CONFIG.GAME.SNAKE_START_LENGTH).headLocation = ⟨7, 0⟩ ∧
      (Snake.new CONFIG.GAME.SNAKE_START_LENGTH).body.head? = some ⟨0, 0⟩ ∧
      (Snake.new CONFIG.GAME.SNAKE_START_LENGTH).direction = Direction.RIGHT ∧
      (Snake.new CONFIG.GAME.SNAKE_START_LENGTH).moveAndGrowIfSet =
        { headLocation := ⟨8, 0⟩,
          body := [⟨1, 0⟩, ⟨2, 0⟩, ⟨3, 0⟩, ⟨4, 0⟩, ⟨5, 0⟩, ⟨6, 0⟩, ⟨7, 0⟩],
          direction := Direction.RIGHT, toGrow := false } ∧
      (Snake.new CONFIG.GAME.SNAKE_START_LENGTH).moveAndGrowIfSet.headLocation = ⟨8, 0⟩ ∧
      (Snake.new CONFIG.GAME.SNAKE_START_LENGTH).moveAndGrowIfSet.body.length = 7 ∧
      (Snake.new CONFIG.GAME.SNAKE_START_LENGTH).moveAndGrowIfSet.body.getLast? =
        some ⟨7, 0⟩ := by
  rw [Snake.new_start]
  decide

/-- The body after `growInHeadDirection` is the old body with the old head appended. -/
theorem Snake.growInHeadDirection_body (s : Snake) :
    s.growInHeadDirection.body = s.body ++ [s.headLocation] := by
  unfold Snake.growInHeadDirection Snake.moveHead
  cases s.direction <;> rfl

/-- The flag and the heading are not touched by `growInHeadDirection`. -/
theorem Snake.growInHeadDirection_flags (s : Snake) :
    s.growInHeadDirection.toGrow = s.toGrow ∧
      s.growInHeadDirection.direction = s.direction := by
  unfold Snake.growInHeadDirection Snake.moveHead
  cases h : s.direction <;> simp [h]

/-- The function `warpAroundScreenIfNeeded` changes the head only. -/
theorem Snake.warpAroundScreenIfNeeded_frame (s : Snake) :
    s.warpAroundScreenIfNeeded.body = s.body ∧
      s.warpAroundScreenIfNeeded.toGrow = s.toGrow ∧
      s.warpAroundScreenIfNeeded.direction = s.direction :=
  ⟨rfl, rfl, rfl⟩

/-- The body after `moveAndGrowIfSet`: the old head is appended and, unless growth was
pending, the first (oldest) cell is dropped. -/
theorem Snake.moveAndGrowIfSet_body (s : Snake) :
    s.moveAndGrowIfSet.body =
      if s.toGrow then s.body ++ [s.headLocation]
      else (s.body ++ [s.headLocation]).eraseIdx 0 := by
  have hb := s.growInHeadDirection_body
  have hf := s.growInHeadDirection_flags
  unfold Snake.moveAndGrowIfSet
  simp only [(Snake.warpAroundScreenIfNeeded_frame _).1, hf.1]
  cases s.toGrow <;> simp [Snake.removeTail, hb]

/-- The flag is cleared and the heading kept by `moveAndGrowIfSet`. -/
theorem Snake.moveAndGrowIfSet_flags (s : Snake) :
    s.moveAndGrowIfSet.toGrow = false ∧ s.moveAndGrowIfSet.direction = s.direction := by
  have hf := s.growInHeadDirection_flags
  unfold Snake.moveAndGrowIfSet
  simp only [(Snake.warpAroundScreenIfNeeded_frame _).2.1,
    (Snake.warpAroundScreenIfNeeded_frame _).2.2]
  split <;> simp_all [Snake.removeTail]

/-- C3: for every snake state (any body, also the empty one, any head, any heading), after
`moveAndGrowIfSet` the body length is the previous length when `toGrow` was false and the
previous length plus one when it was true, and `toGrow` is false afterwards. -/
theorem moveAndGrowIfSet_length (s : Snake) :
    s.moveAndGrowIfSet.body.length = (if s.toGrow then s.body.length + 1 else s.body.length) ∧
      s.moveAndGrowIfSet.toGrow = false := by
  refine ⟨?_, s.moveAndGrowIfSet_flags.1⟩
  rw [Snake.moveAndGrowIfSet_body]
  cases s.toGrow <;> simp [List.length_eraseIdx]

/-- The head after `warpAroundScreenIfNeeded`: both coordinates reduced modulo 20. -/
theorem Snake.warpAroundScreenIfNeeded_head (s : Snake) :
    s.warpAroundScreenIfNeeded.headLocation =
      ⟨s.headLocation.x % 20, s.headLocation.y % 20⟩ := by
  unfold Snake.warpAroundScreenIfNeeded CONFIG.GAME.GRID.GRID_COLUMN_COUNT
    CONFIG.GAME.GRID.GRID_ROW_COUNT
  simp only [getAlgebraicRemainder_eq_emod _ 20 (by decide) (by decide)]

/-- The head after `moveAndGrowIfSet` is the head after `growInHeadDirection`, wrapped. -/
theorem Snake.moveAndGrowIfSet_head (s : Snake) :
    s.moveAndGrowIfSet.headLocation =
      ⟨s.growInHeadDirection.headLocation.x % 20, s.growInHeadDirection.headLocation.y % 20⟩ := by
  unfold Snake.moveAndGrowIfSet
  simp only [Snake.warpAroundScreenIfNeeded_head]
  split <;> rfl

/-- The head after `growInHeadDirection`, by heading. -/
theorem Snake.growInHeadDirection_head (s : Snake) :
    s.growInHeadDirection.headLocation =
      (match s.direction with
        | Direction.UP => ⟨s.headLocation.x, wrapInt32 (s.headLocation.y - 1)⟩
        | Direction.LEFT => ⟨wrapInt32 (s.headLocation.x - 1), s.headLocation.y⟩
        | Direction.RIGHT => ⟨wrapInt32 (s.headLocation.x + 1), s.headLocation.y⟩
        | Direction.DOWN => ⟨s.headLocation.x, wrapInt32 (s.headLocation.y + 1)⟩) := by
  unfold Snake.growInHeadDirection Snake.moveHead
  cases h : s.direction <;> simp [h]

/-- The head after `moveAndGrowIfSet` for a head inside the grid: one cell along the axis
of the heading, modulo 20. -/
theorem Snake.moveAndGrowIfSet_head_grid (s : Snake)
    (hx : 0 ≤ s.headLocation.x ∧ s.headLocation.x < 20)
    (hy : 0 ≤ s.headLocation.y ∧ s.headLocation.y < 20) :
    s.moveAndGrowIfSet.headLocation =
      (match s.direction with
        | Direction.UP => ⟨s.headLocation.x, (s.headLocation.y - 1) % 20⟩
        | Direction.DOWN => ⟨s.headLocation.x, (s.headLocation.y + 1) % 20⟩
        | Direction.LEFT => ⟨(s.headLocation.x - 1) % 20, s.headLocation.y⟩
        | Direction.RIGHT => ⟨(s.headLocation.x + 1) % 20, s.headLocation.y⟩) := by
  have hhead := s.moveAndGrowIfSet_head
  rw [s.growInHeadDirection_head] at hhead
  have hxm : s.headLocation.x % 20 = s.headLocation.x := Int.emod_eq_of_lt hx.1 hx.2
  have hym : s.headLocation.y % 20 = s.headLocation.y := Int.emod_eq_of_lt hy.1 hy.2
  have hw : ∀ z : Int, -1 ≤ z → z ≤ 20 → wrapInt32 z = z := by
    intro z h1 h2
    unfold wrapInt32
    omega
  rw [hhead]
  cases s.direction <;> simp only [hxm, hym] <;> rw [hw _ (by omega) (by omega)]

/-- C4: for every snake whose head lies in the 20x20 grid, `moveAndGrowIfSet` moves the head
by exactly one cell along the axis of the heading (Up: `y-1`, Down: `y+1`, Left: `x-1`,
Right: `x+1`), reduced by Euclidean modulo 20, the other coordinate unchanged (column 19
heading Right gives column 0, column 0 heading Left gives column 19); the new body is the
old body with the old head appended and, unless `toGrow` was set, the oldest entry removed;
the heading is unchanged. -/
theorem moveAndGrowIfSet_step (s : Snake)
    (hx : 0 ≤ s.headLocation.x ∧ s.headLocation.x < 20)
    (hy : 0 ≤ s.headLocation.y ∧ s.headLocation.y < 20) :
    s.moveAndGrowIfSet.headLocation =
        (match s.direction with
          | Direction.UP => ⟨s.headLocation.x, (s.headLocation.y - 1) % 20⟩
          | Direction.DOWN => ⟨s.headLocation.x, (s.headLocation.y + 1) % 20⟩
          | Direction.LEFT => ⟨(s.headLocation.x - 1) % 20, s.headLocation.y⟩
          | Direction.RIGHT => ⟨(s.headLocation.x + 1) % 20, s.headLocation.y⟩) ∧
      (s.direction = Direction.RIGHT → s.headLocation.x = 19 →
        s.moveAndGrowIfSet.headLocation.x = 0) ∧
      (s.direction = Direction.LEFT → s.headLocation.x = 0 →
        s.moveAndGrowIfSet.headLocation.x = 19) ∧
      s.moveAndGrowIfSet.body =
        (if s.toGrow then s.body ++ [s.headLocation] else (s.body ++ [s.headLocation]).tail) ∧
      s.moveAndGrowIfSet.direction = s.direction := by
  have hhead := s.moveAndGrowIfSet_head_grid hx hy
  refine ⟨hhead, ?_, ?_, ?_, s.moveAndGrowIfSet_flags.2⟩
  · intro hd h19
    rw [hhead, hd]
    simp only [h19]
    decide
  · intro hd h0
    rw [hhead, hd]
    simp only [h0]
    decide
  · rw [Snake.moveAndGrowIfSet_body]
    cases s.toGrow <;> simp

/-- Witness of C4: a snake with head `(19,3)` heading right, no growth pending, moves its
head to `(0,3)` and its body `[(18,3)]` becomes `[(19,3)]`. -/
theorem moveAndGrowIfSet_step_witness :
    (Snake.mk ⟨19, 3⟩ [⟨18, 3⟩] Direction.RIGHT false).moveAndGrowIfSet.headLocation = ⟨0, 3⟩ ∧
      (Snake.mk ⟨19, 3⟩ [⟨18, 3⟩] Direction.RIGHT false).moveAndGrowIfSet.body = [⟨19, 3⟩] ∧
      (Snake.mk ⟨19, 3⟩ [⟨18, 3⟩] Direction.RIGHT false).moveAndGrowIfSet.direction =
        Direction.RIGHT :=
  have h := moveAndGrowIfSet_step (Snake.mk ⟨19, 3⟩ [⟨18, 3⟩] Direction.RIGHT false)
    (by decide) (by decide)
  ⟨h.1, h.2.2.2.1, h.2.2.2.2⟩

/-- C5: for every snake with heading `h` and every requested heading `r`, after
`trySetMovindDirection(r)` the heading is `h` when `r` is the 180-degree reverse of `h`
and `r` otherwise; the head cell, the body and the `toGrow` flag are unchanged. -/
theorem trySetMovindDirection_spec (s : Snake) (r : Direction) :
    (s.trySetMovindDirection r).direction =
        (if r = s.direction.reverse then s.direction else r) ∧
      (s.trySetMovindDirection r).headLocation = s.headLocation ∧
      (s.trySetMovindDirection r).body = s.body ∧
      (s.trySetMovindDirection r).toGrow = s.toGrow := by
  obtain ⟨hd, b, d, g⟩ := s
  cases r <;> cases d <;>
    simp [Snake.trySetMovindDirection, Snake.setValidDirectionFrom, Direction.reverse]

/-! ## Heading requests -/

/-- One heading request leaves head, body and flag alone and never installs the reverse of
the heading it finds. -/
theorem Game.handleEvent_spec (sn : Snake) (e : Event) :
    (Game.handleEvent sn e).direction ≠ sn.direction.reverse ∧
      (Game.handleEvent sn e).headLocation = sn.headLocation ∧
      (Game.handleEvent sn e).body = sn.body ∧
      (Game.handleEvent sn e).toGrow = sn.toGrow := by
  obtain ⟨hd, b, d, g⟩ := sn
  obtain ⟨t⟩ := e
  cases t <;> cases d <;>
    simp [Game.handleEvent, Snake.trySetMovindDirection, Snake.setValidDirectionFrom,
      Direction.reverse]

/-! ## Collision tests -/

/-- The pairwise test is true exactly when a cell of the first geometry has the coordinates
of a cell of the second. -/
theorem Collision.didCollide_eq_true_iff (A B : List Point) :
    Collision.didCollide A B = true ↔ ∃ a ∈ A, ∃ b ∈ B, a.x = b.x ∧ a.y = b.y := by
  simp [Collision.didCollide, List.any_eq_true]

/-- Two cells are equal exactly when both coordinates are. -/
theorem Point.eq_iff (p q : Point) : p = q ↔ p.x = q.x ∧ p.y = q.y := by
  cases p
  cases q
  simp

/-- The self test is true exactly when two different positions hold equal cells. -/
theorem Collision.didCollideSelf_eq_true_iff (G : List Point) :
    Collision.didCollideSelf G = true ↔
      ∃ i j : Fin G.length, i ≠ j ∧ G.get i = G.get j := by
  unfold Collision.didCollideSelf
  simp only [List.any_eq_true, List.exists_mem_enum, Bool.and_eq_true, bne_iff_ne, ne_eq,
    beq_iff_eq, and_assoc, ← Point.eq_iff, exists_prop]
  constructor
  · rintro ⟨i, hi, j, hj, hij, h⟩
    exact ⟨⟨i, hi⟩, ⟨j, hj⟩, fun hc => hij (congrArg Fin.val hc), h⟩
  · rintro ⟨⟨i, hi⟩, ⟨j, hj⟩, hij, h⟩
    exact ⟨i, hi, j, hj, fun hc => hij (Fin.ext hc), h⟩

/-- The self test is false exactly on the geometries without a repeated cell. -/
theorem Collision.didCollideSelf_eq_false_iff (G : List Point) :
    Collision.didCollideSelf G = false ↔ G.Nodup := by
  rw [← Bool.not_eq_true, Collision.didCollideSelf_eq_true_iff, List.nodup_iff_injective_get]
  constructor
  · intro h i j hij
    by_contra hne
    exact h ⟨i, j, hne, hij⟩
  · rintro h ⟨i, j, hne, hij⟩
    exact hne (h hij)

/-- C7: for every pair of cell sequences `A` and `B`, either possibly empty,
`Collision::didCollide(A, B)` is true if and only if there are a cell of `A` and a cell
of `B` with equal `x` and equal `y`. -/
theorem didCollide_iff_common_cell (A B : List Point) :
    Collision.didCollide A B = true ↔ ∃ a ∈ A, ∃ b ∈ B, a.x = b.x ∧ a.y = b.y :=
  Collision.didCollide_eq_true_iff A B

/-- C8: for every cell sequence `G` the one-argument `Collision::didCollide(G)` is true if
and only if there are two distinct indices `i != j` with `G[i]` equal to `G[j]`; a cell is
never compared with itself, so the test is false exactly on the geometries with pairwise
distinct cells, in particular on every one-cell geometry. -/
theorem didCollideSelf_iff_repeated_cell (G : List Point) :
    (Collision.didCollideSelf G = true ↔
        ∃ i j : Fin G.length, i ≠ j ∧ G.get i = G.get j) ∧
      (Collision.didCollideSelf G = false ↔ G.Nodup) ∧
      (∀ p : Point, Collision.didCollideSelf [p] = false) :=
  ⟨Collision.didCollideSelf_eq_true_iff G, Collision.didCollideSelf_eq_false_iff G,
    fun p => (Collision.didCollideSelf_eq_false_iff [p]).2 (List.nodup_singleton p)⟩

/-! ## Food placement -/

/-- The pairwise test of a one-cell geometry against `other` is membership in `other`. -/
theorem Collision.didCollide_singleton (p : Point) (other : List Point) :
    Collision.didCollide [p] other = true ↔ p ∈ other := by
  rw [Collision.didCollide_eq_true_iff]
  constructor
  · rintro ⟨a, ha, b, hb, hxy⟩
    rw [List.mem_singleton] at ha
    subst ha
    rw [(Point.eq_iff a b).2 hxy]
    exact hb
  · intro hp
    exact ⟨p, List.mem_singleton.2 rfl, p, hp, rfl, rfl⟩

/-- One round of the loop of `setRandomWithoutColliding`. -/
theorem Food.setRandomWithoutColliding_cons (f : Food) (other : List Point) (r1 r2 : Nat)
    (rands : List Nat) :
    f.setRandomWithoutColliding other (r1 :: r2 :: rands) =
      if (⟨((r1 % 20 : Nat) : Int), ((r2 % 20 : Nat) : Int)⟩ : Point) ∈ other then
        Food.setRandomWithoutColliding
          ⟨⟨((r1 % 20 : Nat) : Int), ((r2 % 20 : Nat) : Int)⟩⟩ other rands
      else some (⟨⟨((r1 % 20 : Nat) : Int), ((r2 % 20 : Nat) : Int)⟩⟩, rands) := by
  rw [Food.setRandomWithoutColliding]
  simp only [Food.getCollisionGeometry]
  by_cases hp : (⟨((r1 % 20 : Nat) : Int), ((r2 % 20 : Nat) : Int)⟩ : Point) ∈ other
  · rw [if_pos hp, if_pos]
    · rfl
    · exact (Collision.didCollide_singleton _ other).2 hp
  · rw [if_neg hp, if_neg]
    · rfl
    · exact fun hc => hp ((Collision.didCollide_singleton _ other).1 hc)

/-- The cell that `setRandomWithoutColliding` leaves is the first sampled cell outside
`other`; the loop stops within `rands` exactly when there is such a cell. -/
theorem Food.setRandomWithoutColliding_location (other : List Point) :
    ∀ (rands : List Nat) (f : Food),
      (f.setRandomWithoutColliding other rands).map (fun r => r.1.location) =
        (sampledCells rands).find? (fun p => decide (p ∉ other))
  | [], _ => rfl
  | [_], _ => rfl
  | r1 :: r2 :: rands, f => by
      have ih := Food.setRandomWithoutColliding_location other rands
        ⟨⟨((r1 % 20 : Nat) : Int), ((r2 % 20 : Nat) : Int)⟩⟩
      rw [Food.setRandomWithoutColliding_cons]
      simp only [sampledCells, List.find?_cons]
      by_cases hp : (⟨((r1 % 20 : Nat) : Int), ((r2 % 20 : Nat) : Int)⟩ : Point) ∈ other
      · simp only [hp, if_true, not_true_eq_false, decide_False]
        exact ih
      · simp only [hp, if_false, not_false_eq_true, decide_True, Option.map_some']

/-- Every sampled cell lies in the 20x20 grid. -/
theorem sampledCells_in_grid :
    ∀ (rands : List Nat) (p : Point), p ∈ sampledCells rands →
      0 ≤ p.x ∧ p.x < 20 ∧ 0 ≤ p.y ∧ p.y < 20
  | [], _, hp => by simp [sampledCells] at hp
  | [_], _, hp => by simp [sampledCells] at hp
  | r1 :: r2 :: rands, p, hp => by
      simp only [sampledCells, List.mem_cons] at hp
      rcases hp with rfl | hp
      · simp only
        omega
      · exact sampledCells_in_grid rands p hp

/-- The loop of `setRandomWithoutColliding` stops within `rands` as soon as `rands` holds
a sampled cell outside `other`. -/
theorem Food.setRandomWithoutColliding_isSome (f : Food) (other : List Point)
    (rands : List Nat) (p : Point) (hp : p ∈ sampledCells rands) (hfree : p ∉ other) :
    (f.setRandomWithoutColliding other rands).isSome = true := by
  have h := Food.setRandomWithoutColliding_location other rands f
  cases hr : f.setRandomWithoutColliding other rands with
  | some r => rfl
  | none =>
      rw [hr, Option.map_none'] at h
      have hnone := List.find?_eq_none.1 h.symm p hp
      simp only [decide_not, Bool.not_eq_true', decide_eq_false_iff_not, not_not] at hnone
      exact absurd hnone hfree

/-- C9: for every obstacle geometry and every sequence of random samples on which
`setRandomWithoutColliding` stops, the food cell it leaves is the first sampled cell
`(rand() % 20, rand() % 20)` that equals no cell of the obstacle; in particular that cell
is not contained in the obstacle (the pairwise collision test is false) and satisfies
`0 <= x < 20` and `0 <= y < 20`. -/
theorem setRandomWithoutColliding_first_free (f : Food) (other : List Point)
    (rands : List Nat) (f' : Food) (rest : List Nat)
    (h : f.setRandomWithoutColliding other rands = some (f', rest)) :
    (sampledCells rands).find? (fun p => decide (p ∉ other)) = some f'.location ∧
      f'.location ∉ other ∧
      Collision.didCollide f'.getCollisionGeometry other = false ∧
      0 ≤ f'.location.x ∧ f'.location.x < 20 ∧ 0 ≤ f'.location.y ∧ f'.location.y < 20 := by
  have hloc := Food.setRandomWithoutColliding_location other rands f
  rw [h, Option.map_some'] at hloc
  have hfree : f'.location ∉ other := by
    have := List.find?_some hloc.symm
    simpa using this
  refine ⟨hloc.symm, hfree, ?_, sampledCells_in_grid rands _ (List.mem_of_find?_eq_some hloc.symm)⟩
  rw [← Bool.not_eq_true]
  exact fun hc => hfree ((Collision.didCollide_singleton _ other).1 hc)

/-- Witness of C9: against the obstacle `[(3,0), (4,0)]` the samples `23, 0, 25, 44` give
first the occupied cell `(3,0)`, then the free cell `(5,4)`, where the food stays. -/
theorem setRandomWithoutColliding_first_free_witness :
    Food.new.setRandomWithoutColliding [⟨3, 0⟩, ⟨4, 0⟩] [23, 0, 25, 44, 9] =
        some (⟨⟨5, 4⟩⟩, [9]) ∧
      (sampledCells [23, 0, 25, 44, 9]).find? (fun p => decide (p ∉ [⟨3, 0⟩, ⟨4, 0⟩])) =
        some ⟨5, 4⟩ ∧
      (⟨5, 4⟩ : Point) ∉ [(⟨3, 0⟩ : Point), ⟨4, 0⟩] :=
  have h := setRandomWithoutColliding_first_free Food.new [⟨3, 0⟩, ⟨4, 0⟩] [23, 0, 25, 44, 9]
    ⟨⟨5, 4⟩⟩ [9] (by decide)
  ⟨by decide, h.1, h.2.1⟩

/-- C10: the self-collision test is false for the freshly constructed snake of the
configured starting length 7: its head and its 7 body cells are pairwise distinct. -/
theorem start_snake_no_self_collision :
    Collision.didCollideSelf
        (Snake.new CONFIG.GAME.SNAKE_START_LENGTH).getCollisionGeometry = false ∧
      (Snake.new CONFIG.GAME.SNAKE_START_LENGTH).body.length = 7 ∧
      ((Snake.new CONFIG.GAME.SNAKE_START_LENGTH).headLocation ::
        (Snake.new CONFIG.GAME.SNAKE_START_LENGTH).body).Nodup := by
  rw [Snake.new_start]
  decide

/-- The collision geometry of a snake is its head followed by its body. -/
theorem Snake.getCollisionGeometry_eq (s : Snake) :
    s.getCollisionGeometry = s.headLocation :: s.body := by
  have h : ∀ (b acc : List Point),
      b.foldl (fun results bodyLocation => results ++ [bodyLocation]) acc = acc ++ b := by
    intro b
    induction b with
    | nil => intro acc; simp
    | cons c t ih => intro acc; simp [ih]
  exact h s.body [s.headLocation]

/-! ## Growth requests -/

/-- The body length after `moveAndGrowIfSet`, by the flag. -/
theorem Snake.moveAndGrowIfSet_body_length (s : Snake) :
    s.moveAndGrowIfSet.body.length =
      if s.toGrow then s.body.length + 1 else s.body.length := by
  rw [Snake.moveAndGrowIfSet_body]
  cases s.toGrow <;> simp [List.length_eraseIdx]

/-- Without a pending growth any number of advances keeps the body length. -/
theorem Snake.iterate_moveAndGrowIfSet_length (n : Nat) (s : Snake) (h : s.toGrow = false) :
    (Snake.moveAndGrowIfSet^[n] s).body.length = s.body.length ∧
      (Snake.moveAndGrowIfSet^[n] s).toGrow = false := by
  induction n with
  | zero => exact ⟨rfl, h⟩
  | succ k ih =>
      rw [Function.iterate_succ_apply']
      refine ⟨?_, (Snake.moveAndGrowIfSet_flags _).1⟩
      rw [Snake.moveAndGrowIfSet_body_length, ih.2]
      exact ih.1

/-- C11: `prepareToGrowOnNextMove` is idempotent: for every snake state, calling it twice
gives exactly the state of calling it once; a following `moveAndGrowIfSet` then increases
the body length by exactly 1 (not 2), and any number `n` of further `moveAndGrowIfSet`
calls leaves the length unchanged. -/
theorem prepareToGrowOnNextMove_idempotent (s : Snake) (n : Nat) :
    s.prepareToGrowOnNextMove.prepareToGrowOnNextMove = s.prepareToGrowOnNextMove ∧
      s.prepareToGrowOnNextMove.prepareToGrowOnNextMove.moveAndGrowIfSet.body.length =
        s.body.length + 1 ∧
      (Snake.moveAndGrowIfSet^[n]
        s.prepareToGrowOnNextMove.prepareToGrowOnNextMove.moveAndGrowIfSet).body.length =
          s.body.length + 1 := by
  have h1 : s.prepareToGrowOnNextMove.prepareToGrowOnNextMove.moveAndGrowIfSet.body.length =
      s.body.length + 1 := by
    rw [Snake.moveAndGrowIfSet_body_length]
    rfl
  refine ⟨rfl, h1, ?_⟩
  rw [(Snake.iterate_moveAndGrowIfSet_length n _ (Snake.moveAndGrowIfSet_flags _).1).1]
  exact h1

/-- Exchanging the two geometries does not change the pairwise test. -/
theorem Collision.didCollide_comm (A B : List Point) :
    Collision.didCollide A B = Collision.didCollide B A := by
  rw [Bool.eq_iff_iff, Collision.didCollide_eq_true_iff, Collision.didCollide_eq_true_iff]
  constructor
  · rintro ⟨a, ha, b, hb, hx, hy⟩
    exact ⟨b, hb, a, ha, hx.symm, hy.symm⟩
  · rintro ⟨b, hb, a, ha, hx, hy⟩
    exact ⟨a, ha, b, hb, hx.symm, hy.symm⟩

/-- C12: the pairwise collision test is symmetric: for every two geometries `A` and `B`,
`Collision::didCollide(A, B)` equals `Collision::didCollide(B, A)`. -/
theorem didCollide_symmetric (A B : List Point) :
    Collision.didCollide A B = Collision.didCollide B A :=
  Collision.didCollide_comm A B

/-! ## Collision handling in the game loop -/

/-- The snake meets the food exactly when the food cell is the head or a body cell. -/
theorem Collision.didCollide_snake_food (s : Snake) (f : Food) :
    Collision.didCollide s.getCollisionGeometry f.getCollisionGeometry = true ↔
      f.location ∈ s.headLocation :: s.body := by
  rw [Collision.didCollide_comm, Food.getCollisionGeometry, Collision.didCollide_singleton,
    Snake.getCollisionGeometry_eq]

/-- The self test of a snake is false exactly when head and body cells are pairwise
distinct. -/
theorem Collision.didCollideSelf_snake (s : Snake) :
    Collision.didCollideSelf s.getCollisionGeometry = false ↔
      (s.headLocation :: s.body).Nodup := by
  rw [Collision.didCollideSelf_eq_false_iff, Snake.getCollisionGeometry_eq]

/-- The three branches of `handleCollisions`, by the cells of snake and food. -/
theorem Game.handleCollisions_eq (g : Game) (rands : List Nat) :
    g.handleCollisions rands =
      if ¬ (g.snake.headLocation :: g.snake.body).Nodup then Outcome.exited 1 g
      else if g.food.location ∈ g.snake.headLocation :: g.snake.body then
        match g.food.setRandomWithoutColliding (g.snake.headLocation :: g.snake.body) rands with
        | none => Outcome.outOfSamples
        | some (food, rest) =>
            Outcome.done { g with snake := g.snake.prepareToGrowOnNextMove, food := food } rest
      else Outcome.done g rands := by
  unfold Game.handleCollisions
  by_cases hn : (g.snake.headLocation :: g.snake.body).Nodup
  · have h1 : Collision.didCollideSelf g.snake.getCollisionGeometry = false :=
      (Collision.didCollideSelf_snake g.snake).2 hn
    rw [h1, if_neg (by simp), if_neg (not_not.2 hn)]
    by_cases hf : g.food.location ∈ g.snake.headLocation :: g.snake.body
    · rw [if_pos ((Collision.didCollide_snake_food g.snake g.food).2 hf), if_pos hf]
      simp only [Snake.getCollisionGeometry_eq]
      rfl
    · rw [if_neg (fun hc => hf ((Collision.didCollide_snake_food g.snake g.food).1 hc)),
        if_neg hf]
  · have h1 : Collision.didCollideSelf g.snake.getCollisionGeometry = true := by
      rw [← Bool.not_eq_false]
      exact fun hc => hn ((Collision.didCollideSelf_snake g.snake).1 hc)
    rw [h1, if_pos rfl, if_pos hn]

/-- What a returning `handleCollisions` leaves: the snake cells were pairwise distinct, only
the flag and the food can have changed, and the food has left the snake. -/
theorem Game.handleCollisions_done (g g' : Game) (rands rest : List Nat)
    (h : g.handleCollisions rands = Outcome.done g' rest) :
    (g.snake.headLocation :: g.snake.body).Nodup ∧
      g'.snake.headLocation = g.snake.headLocation ∧ g'.snake.body = g.snake.body ∧
      g'.snake.direction = g.snake.direction ∧ g'.raisedEvents = g.raisedEvents ∧
      g'.clock = g.clock ∧ g'.food.location ∉ g.snake.headLocation :: g.snake.body ∧
      ((g.food.location ∈ g.snake.headLocation :: g.snake.body ∧
          g'.snake = g.snake.prepareToGrowOnNextMove ∧
          g.food.setRandomWithoutColliding (g.snake.headLocation :: g.snake.body) rands =
            some (g'.food, rest)) ∨
        (g.food.location ∉ g.snake.headLocation :: g.snake.body ∧ g' = g ∧ rest = rands)) := by
  rw [Game.handleCollisions_eq] at h
  by_cases hn : (g.snake.headLocation :: g.snake.body).Nodup
  · rw [if_neg (not_not.2 hn)] at h
    by_cases hf : g.food.location ∈ g.snake.headLocation :: g.snake.body
    · rw [if_pos hf] at h
      cases hr : g.food.setRandomWithoutColliding (g.snake.headLocation :: g.snake.body) rands with
      | none => rw [hr] at h; simp at h
      | some r =>
          obtain ⟨food, rest'⟩ := r
          rw [hr] at h
          simp only [Outcome.done.injEq] at h
          obtain ⟨hg, hrest⟩ := h
          subst hg
          subst hrest
          have hfree := List.find?_some
            ((Food.setRandomWithoutColliding_location _ rands g.food).symm.trans
              (by rw [hr]; rfl))
          refine ⟨hn, rfl, rfl, rfl, rfl, rfl, ?_, Or.inl ⟨hf, rfl, rfl⟩⟩
          simpa using hfree
    · rw [if_neg hf] at h
      simp only [Outcome.done.injEq] at h
      obtain ⟨hg, hrest⟩ := h
      subst hg
      exact ⟨hn, rfl, rfl, rfl, rfl, rfl, hf, Or.inr ⟨hf, rfl, hrest.symm⟩⟩
  · rw [if_pos hn] at h
    simp at h

/-- The exit branch of `handleCollisions` is taken exactly on a repeated snake cell, and
then in the unchanged state. -/
theorem Game.handleCollisions_exited_iff (g : Game) (rands : List Nat) (code : Nat)
    (atExit : Game) :
    g.handleCollisions rands = Outcome.exited code atExit ↔
      (¬ (g.snake.headLocation :: g.snake.body).Nodup ∧ code = 1 ∧ atExit = g) := by
  rw [Game.handleCollisions_eq]
  by_cases hn : (g.snake.headLocation :: g.snake.body).Nodup
  · rw [if_neg (not_not.2 hn)]
    constructor
    · intro h
      split at h
      · split at h <;> simp at h
      · simp at h
    · intro h
      exact absurd hn h.1
  · rw [if_pos hn]
    simp only [Outcome.exited.injEq]
    constructor
    · rintro ⟨h1, h2⟩
      exact ⟨hn, h1.symm, h2.symm⟩
    · rintro ⟨-, h1, h2⟩
      exact ⟨h1.symm, h2.symm⟩

/-- When the food lies on the snake and a free cell is among the sampled ones, the
relocation stops and `handleCollisions` returns. -/
theorem Game.handleCollisions_returns (g : Game) (rands : List Nat) (p : Point)
    (hn : (g.snake.headLocation :: g.snake.body).Nodup)
    (hp : p ∈ sampledCells rands) (hfree : p ∉ g.snake.headLocation :: g.snake.body) :
    ∃ g' rest, g.handleCollisions rands = Outcome.done g' rest := by
  rw [Game.handleCollisions_eq, if_neg (not_not.2 hn)]
  by_cases hf : g.food.location ∈ g.snake.headLocation :: g.snake.body
  · rw [if_pos hf]
    have hs := Food.setRandomWithoutColliding_isSome g.food _ rands p hp hfree
    cases hr : g.food.setRandomWithoutColliding (g.snake.headLocation :: g.snake.body) rands with
    | none => rw [hr] at hs; simp at hs
    | some r => exact ⟨_, r.2, rfl⟩
  · rw [if_neg hf]
    exact ⟨g, rands, rfl⟩

/-- C13: for every game state, `handleCollisions` takes the exit branch (`exit(1)`) if and
only if the snake's geometry (head followed by body) holds two equal cells at distinct
positions; at the exit the state is the unchanged one, so no growth is scheduled and the
food is not relocated; and when `handleCollisions` returns, the game continues with a snake
whose cells are pairwise distinct. -/
theorem handleCollisions_exit_iff (g : Game) (rands : List Nat) :
    (g.handleCollisions rands = Outcome.exited 1 g ↔
        ∃ i j : Fin g.snake.getCollisionGeometry.length,
          i ≠ j ∧ g.snake.getCollisionGeometry.get i = g.snake.getCollisionGeometry.get j) ∧
      (∀ code atExit, g.handleCollisions rands = Outcome.exited code atExit →
        code = 1 ∧ atExit = g ∧ atExit.snake.toGrow = g.snake.toGrow ∧ atExit.food = g.food) ∧
      (∀ g' rest, g.handleCollisions rands = Outcome.done g' rest →
        g'.snake.getCollisionGeometry.Nodup ∧
          Collision.didCollideSelf g'.snake.getCollisionGeometry = false) := by
  refine ⟨?_, ?_, ?_⟩
  · rw [Game.handleCollisions_exited_iff, ← Collision.didCollideSelf_eq_true_iff,
      ← Bool.not_eq_false, Collision.didCollideSelf_snake]
    simp
  · intro code atExit h
    obtain ⟨-, h1, h2⟩ := (Game.handleCollisions_exited_iff g rands code atExit).1 h
    subst h2
    exact ⟨h1, rfl, rfl, rfl⟩
  · intro g' rest h
    obtain ⟨hn, hh, hb, -⟩ := Game.handleCollisions_done g g' rands rest h
    have hn' : (g'.snake.headLocation :: g'.snake.body).Nodup := by
      rw [hh, hb]
      exact hn
    exact ⟨by rw [Snake.getCollisionGeometry_eq]; exact hn',
      (Collision.didCollideSelf_snake g'.snake).2 hn'⟩

/-- Witness of C13: a snake whose head `(1,1)` is also its only body cell makes
`handleCollisions` exit with code 1 in the unchanged state. -/
theorem handleCollisions_exit_iff_witness :
    (Game.mk ⟨⟨1, 1⟩, [⟨1, 1⟩], Direction.UP, false⟩ ⟨⟨1, 1⟩⟩ [] 0).handleCollisions [3, 3] =
        Outcome.exited 1 (Game.mk ⟨⟨1, 1⟩, [⟨1, 1⟩], Direction.UP, false⟩ ⟨⟨1, 1⟩⟩ [] 0) ∧
      (1 = 1 ∧
        (Game.mk ⟨⟨1, 1⟩, [⟨1, 1⟩], Direction.UP, false⟩ ⟨⟨1, 1⟩⟩ [] 0) =
          (Game.mk ⟨⟨1, 1⟩, [⟨1, 1⟩], Direction.UP, false⟩ ⟨⟨1, 1⟩⟩ [] 0) ∧
        (Game.mk ⟨⟨1, 1⟩, [⟨1, 1⟩], Direction.UP, false⟩ ⟨⟨1, 1⟩⟩ [] 0).snake.toGrow = false ∧
        (Game.mk ⟨⟨1, 1⟩, [⟨1, 1⟩], Direction.UP, false⟩ ⟨⟨1, 1⟩⟩ [] 0).food = ⟨⟨1, 1⟩⟩) :=
  ⟨by decide,
    (handleCollisions_exit_iff (Game.mk ⟨⟨1, 1⟩, [⟨1, 1⟩], Direction.UP, false⟩ ⟨⟨1, 1⟩⟩ [] 0)
      [3, 3]).2.1 1 _ (by decide)⟩

/-- C14: for every game state whose snake does not self-collide: if the food cell equals
some cell of the snake geometry, then, when the relocation against the snake stops,
`handleCollisions` returns with `toGrow` true and a food cell that equals no snake cell,
while the snake's head, body and heading are unchanged; if the food cell equals no snake
cell, `handleCollisions` returns and leaves the snake (`toGrow` included) and the food
unchanged. -/
theorem handleCollisions_food (g : Game) (rands : List Nat)
    (hself : Collision.didCollideSelf g.snake.getCollisionGeometry = false) :
    (g.food.location ∈ g.snake.getCollisionGeometry →
        ∀ food' rest,
          g.food.setRandomWithoutColliding g.snake.getCollisionGeometry rands =
            some (food', rest) →
          ∃ g', g.handleCollisions rands = Outcome.done g' rest ∧
            g'.snake.toGrow = true ∧ g'.food = food' ∧
            g'.food.location ∉ g'.snake.getCollisionGeometry ∧
            Collision.didCollide g'.snake.getCollisionGeometry g'.food.getCollisionGeometry
              = false ∧
            g'.snake.headLocation = g.snake.headLocation ∧ g'.snake.body = g.snake.body ∧
            g'.snake.direction = g.snake.direction) ∧
      (g.food.location ∉ g.snake.getCollisionGeometry →
        g.handleCollisions rands = Outcome.done g rands) := by
  have hn := (Collision.didCollideSelf_snake g.snake).1 hself
  simp only [Snake.getCollisionGeometry_eq]
  constructor
  · intro hf food' rest hr
    have hret : g.handleCollisions rands =
        Outcome.done { g with snake := g.snake.prepareToGrowOnNextMove, food := food' } rest := by
      rw [Game.handleCollisions_eq, if_neg (not_not.2 hn), if_pos hf, hr]
    obtain ⟨-, -, -, -, -, -, hfree, -⟩ := Game.handleCollisions_done g _ rands rest hret
    refine ⟨_, hret, rfl, rfl, hfree, ?_, rfl, rfl, rfl⟩
    rw [← Bool.not_eq_true]
    intro hc
    rw [← Snake.getCollisionGeometry_eq] at hc
    exact hfree ((Collision.didCollide_snake_food g.snake.prepareToGrowOnNextMove _).1 hc)
  · intro hnf
    rw [Game.handleCollisions_eq, if_neg (not_not.2 hn), if_neg hnf]

/-- Witness of C14: the food lies on the head `(2,0)` of a three-cell snake; the samples
`1, 0` give the occupied cell `(1,0)`, the samples `23, 40` the free cell `(3,0)`; the flag
is set and the food is at `(3,0)`. -/
theorem handleCollisions_food_witness :
    ∃ g', (Game.mk ⟨⟨2, 0⟩, [⟨0, 0⟩, ⟨1, 0⟩], Direction.RIGHT, false⟩ ⟨⟨2, 0⟩⟩ [] 0
          ).handleCollisions [1, 0, 23, 40] = Outcome.done g' [] ∧
        g'.snake.toGrow = true ∧ g'.food = ⟨⟨3, 0⟩⟩ ∧
        g'.food.location ∉ g'.snake.getCollisionGeometry :=
  have h := (handleCollisions_food
    (Game.mk ⟨⟨2, 0⟩, [⟨0, 0⟩, ⟨1, 0⟩], Direction.RIGHT, false⟩ ⟨⟨2, 0⟩⟩ [] 0)
    [1, 0, 23, 40] (by decide)).1 (by decide) ⟨⟨3, 0⟩⟩ [] (by decide)
  h.imp fun _ hg => ⟨hg.1, hg.2.1, hg.2.2.1, hg.2.2.2.1⟩

/-! ## The update step -/

/-- Heading requests change the heading only. -/
theorem Game.foldl_handleEvent_frame (es : List Event) (sn : Snake) :
    (es.foldl Game.handleEvent sn).headLocation = sn.headLocation ∧
      (es.foldl Game.handleEvent sn).body = sn.body ∧
      (es.foldl Game.handleEvent sn).toGrow = sn.toGrow := by
  induction es generalizing sn with
  | nil => exact ⟨rfl, rfl, rfl⟩
  | cons e t ih =>
      have h1 := Game.handleEvent_spec sn e
      have h2 := ih (Game.handleEvent sn e)
      rw [List.foldl_cons]
      exact ⟨h2.1.trans h1.2.1, h2.2.1.trans h1.2.2.1, h2.2.2.trans h1.2.2.2⟩

/-- The function `handleEvents` keeps head, body, flag, food and clock, and empties the
list of raised events. -/
theorem Game.handleEvents_frame (g : Game) :
    g.handleEvents.snake.headLocation = g.snake.headLocation ∧
      g.handleEvents.snake.body = g.snake.body ∧
      g.handleEvents.snake.toGrow = g.snake.toGrow ∧
      g.handleEvents.food = g.food ∧ g.handleEvents.clock = g.clock ∧
      g.handleEvents.raisedEvents = [] := by
  have h := Game.foldl_handleEvent_frame g.raisedEvents g.snake
  exact ⟨h.1, h.2.1, h.2.2, rfl, rfl, rfl⟩

/-- A returning `update` is a returning `handleCollisions` followed by `handleEvents` and
the timer. -/
theorem Game.update_done_iff (g g' : Game) (deltaTime : Nat) (rands rest : List Nat) :
    g.update deltaTime rands = Outcome.done g' rest ↔
      ∃ g1, g.handleCollisions rands = Outcome.done g1 rest ∧
        g' = g1.handleEvents.moveOnTimer deltaTime := by
  unfold Game.update
  cases hc : g.handleCollisions rands with
  | exited code atExit => simp
  | outOfSamples => simp
  | done g1 rest1 =>
      simp only [Outcome.done.injEq]
      constructor
      · rintro ⟨h1, h2⟩
        exact ⟨g1, ⟨rfl, h2⟩, h1.symm⟩
      · rintro ⟨g2, ⟨h1, h2⟩, h3⟩
        rw [h3, h1]
        exact ⟨rfl, h2⟩

/-- The timer step keeps the food and either advances the snake once, clearing the clock,
or leaves the snake alone. -/
theorem Game.moveOnTimer_cases (g : Game) (deltaTime : Nat) :
    (g.moveOnTimer deltaTime).food = g.food ∧
      (g.moveOnTimer deltaTime).raisedEvents = g.raisedEvents ∧
      ((g.moveOnTimer deltaTime).snake = g.snake.moveAndGrowIfSet ∨
        (g.moveOnTimer deltaTime).snake = g.snake) := by
  unfold Game.moveOnTimer
  split
  · exact ⟨rfl, rfl, Or.inl rfl⟩
  · exact ⟨rfl, rfl, Or.inr rfl⟩

/-- The body after an advance consists of cells of the old head and body, and has no
repeated cell when the old head and body had none. -/
theorem Snake.moveAndGrowIfSet_body_sub (s : Snake) :
    (∀ p ∈ s.moveAndGrowIfSet.body, p ∈ s.headLocation :: s.body) ∧
      ((s.headLocation :: s.body).Nodup → s.moveAndGrowIfSet.body.Nodup) := by
  have hsub : List.Sublist s.moveAndGrowIfSet.body (s.body ++ [s.headLocation]) := by
    rw [Snake.moveAndGrowIfSet_body]
    split
    · exact List.Sublist.refl _
    · exact List.eraseIdx_sublist _ _
  constructor
  · intro p hp
    have := hsub.subset hp
    simp only [List.mem_append, List.mem_singleton] at this
    rw [List.mem_cons]
    exact this.symm
  · intro hn
    have hn' : (s.body ++ [s.headLocation]).Nodup :=
      List.nodup_append_comm.1 (by simpa using hn)
    exact hn'.sublist hsub

/-- What every returning `update` leaves: a body without repeated cell, the food off the
body, the food off the whole snake whenever a growth is pending, no raised event. -/
theorem Game.update_done_inv (g g' : Game) (deltaTime : Nat) (rands rest : List Nat)
    (h : g.update deltaTime rands = Outcome.done g' rest) :
    g'.snake.body.Nodup ∧ g'.food.location ∉ g'.snake.body ∧
      (g'.snake.toGrow = true → g'.food.location ∉ g'.snake.headLocation :: g'.snake.body) ∧
      g'.raisedEvents = [] := by
  obtain ⟨g1, hc, hg'⟩ := (Game.update_done_iff g g' deltaTime rands rest).1 h
  obtain ⟨hn, hh, hb, -, -, -, hfree, -⟩ := Game.handleCollisions_done g g1 rands rest hc
  have hf := Game.handleEvents_frame g1
  have hm := Game.moveOnTimer_cases g1.handleEvents deltaTime
  rw [← hg'] at hm
  have hn2 : (g1.handleEvents.snake.headLocation :: g1.handleEvents.snake.body).Nodup := by
    rw [hf.1, hf.2.1, hh, hb]
    exact hn
  have hfree2 : g'.food.location ∉
      g1.handleEvents.snake.headLocation :: g1.handleEvents.snake.body := by
    rw [hm.1, hf.2.2.2.1, hf.1, hf.2.1, hh, hb]
    exact hfree
  have hev : g'.raisedEvents = [] := hm.2.1.trans hf.2.2.2.2.2
  rcases hm.2.2 with hs | hs
  · have hsub := g1.handleEvents.snake.moveAndGrowIfSet_body_sub
    rw [hs]
    refine ⟨hsub.2 hn2, fun hmem => hfree2 (hsub.1 _ hmem), ?_, hev⟩
    intro hg
    rw [(Snake.moveAndGrowIfSet_flags _).1] at hg
    exact absurd hg (by simp)
  · rw [hs]
    exact ⟨(List.nodup_cons.1 hn2).2, fun hmem => hfree2 (List.mem_cons_of_mem _ hmem),
      fun _ => hfree2, hev⟩

/-- The invariants of the states the loop reaches. -/
theorem Game.Reachable.loop_invariants (g : Game) (hr : g.Reachable) :
    g.snake.body.Nodup ∧ g.food.location ∉ g.snake.body ∧
      (g.snake.toGrow = true → g.food.location ∉ g.snake.headLocation :: g.snake.body) ∧
      g.raisedEvents = [] := by
  cases hr with
  | init =>
      unfold Game.new
      rw [Snake.new_start]
      decide
  | step g0 _ polled deltaTime rands rest _ hstep =>
      exact Game.update_done_inv _ g deltaTime rands rest hstep

/-- A snake whose head lies on its body makes `update` exit at once, in the unchanged
state. -/
theorem Game.update_exited_of_head_mem (g : Game) (deltaTime : Nat) (rands : List Nat)
    (hmem : g.snake.headLocation ∈ g.snake.body) :
    g.update deltaTime rands = Outcome.exited 1 g := by
  have hc : g.handleCollisions rands = Outcome.exited 1 g :=
    (Game.handleCollisions_exited_iff g rands 1 g).2
      ⟨fun hn => (List.nodup_cons.1 hn).1 hmem, rfl, rfl⟩
  unfold Game.update
  rw [hc]

/-- C16: in every game state reachable from the initial game (configured snake, food at
`(4,4)`) by any sequence of `update` steps with arbitrary event batches, elapsed times and
random samples, the snake's body holds no repeated cell, and when the head equals a body
cell the next `update`, whatever the events, elapsed time and samples, exits with code 1
in that very state, before any further advance. -/
theorem reachable_body_nodup (g : Game) (hr : g.Reachable) :
    g.snake.body.Nodup ∧
      (g.snake.headLocation ∈ g.snake.body →
        ∀ polled deltaTime rands,
          (g.getEvents polled).update deltaTime rands =
            Outcome.exited 1 (g.getEvents polled)) :=
  ⟨(Game.Reachable.loop_invariants g hr).1, fun hmem polled deltaTime rands =>
    Game.update_exited_of_head_mem (g.getEvents polled) deltaTime rands hmem⟩

/-- The initial game, evaluated. -/
theorem Game.new_evaluated :
    Game.new =
      { snake :=
          { headLocation := ⟨7, 0⟩,
            body := [⟨0, 0⟩, ⟨1, 0⟩, ⟨2, 0⟩, ⟨3, 0⟩, ⟨4, 0⟩, ⟨5, 0⟩, ⟨6, 0⟩],
            direction := Direction.RIGHT, toGrow := false },
        food := ⟨⟨4, 4⟩⟩, raisedEvents := [], clock := 0 } := by
  unfold Game.new
  rw [Snake.new_start]
  rfl

/-- Witness of C16: two iterations from the initial game, the first with 50 ms elapsed, the
second advancing the snake to head `(8,0)`; the body `(1,0) .. (7,0)` has no repeated
cell. -/
theorem reachable_body_nodup_witness :
    (Game.mk ⟨⟨8, 0⟩, [⟨1, 0⟩, ⟨2, 0⟩, ⟨3, 0⟩, ⟨4, 0⟩, ⟨5, 0⟩, ⟨6, 0⟩, ⟨7, 0⟩],
      Direction.RIGHT, false⟩ ⟨⟨4, 4⟩⟩ [] 0).snake.body.Nodup := by
  have r1 : Game.Reachable
      (Game.mk ⟨⟨7, 0⟩, [⟨0, 0⟩, ⟨1, 0⟩, ⟨2, 0⟩, ⟨3, 0⟩, ⟨4, 0⟩, ⟨5, 0⟩, ⟨6, 0⟩],
        Direction.RIGHT, false⟩ ⟨⟨4, 4⟩⟩ [] 50) :=
    Game.Reachable.step Game.new _ [] 50 [] [] Game.Reachable.init
      (by rw [Game.new_evaluated]; decide)
  have r2 : Game.Reachable
      (Game.mk ⟨⟨8, 0⟩, [⟨1, 0⟩, ⟨2, 0⟩, ⟨3, 0⟩, ⟨4, 0⟩, ⟨5, 0⟩, ⟨6, 0⟩, ⟨7, 0⟩],
        Direction.RIGHT, false⟩ ⟨⟨4, 4⟩⟩ [] 0) :=
    Game.Reachable.step _ _ [] 16 [] [] r1 (by decide)
  exact (reachable_body_nodup _ r2).1

/-! ## The order of the two handlers -/

/-- A heading request and a growth request commute. -/
theorem Game.handleEvent_prepareToGrowOnNextMove (sn : Snake) (e : Event) :
    Game.handleEvent sn.prepareToGrowOnNextMove e =
      (Game.handleEvent sn e).prepareToGrowOnNextMove := by
  obtain ⟨hd, b, d, g⟩ := sn
  obtain ⟨t⟩ := e
  cases t <;> cases d <;>
    simp [Game.handleEvent, Snake.trySetMovindDirection, Snake.setValidDirectionFrom,
      Snake.prepareToGrowOnNextMove]

/-- A batch of heading requests and a growth request commute. -/
theorem Game.foldl_handleEvent_prepareToGrowOnNextMove (es : List Event) (sn : Snake) :
    es.foldl Game.handleEvent sn.prepareToGrowOnNextMove =
      (es.foldl Game.handleEvent sn).prepareToGrowOnNextMove := by
  induction es generalizing sn with
  | nil => rfl
  | cons e t ih =>
      rw [List.foldl_cons, List.foldl_cons, Game.handleEvent_prepareToGrowOnNextMove, ih]

/-- Resolving the collisions after the heading requests gives the outcome of resolving them
before, with the heading requests applied to the state it carries. -/
theorem Game.handleCollisions_handleEvents (g : Game) (rands : List Nat) :
    g.handleEvents.handleCollisions rands =
      match g.handleCollisions rands with
      | Outcome.exited code atExit => Outcome.exited code atExit.handleEvents
      | Outcome.outOfSamples => Outcome.outOfSamples
      | Outcome.done g1 rest => Outcome.done g1.handleEvents rest := by
  have hf := Game.handleEvents_frame g
  rw [Game.handleCollisions_eq, Game.handleCollisions_eq g, hf.1, hf.2.1, hf.2.2.2.1]
  by_cases hn : (g.snake.headLocation :: g.snake.body).Nodup
  · rw [if_neg (not_not.2 hn), if_neg (not_not.2 hn)]
    by_cases hfood : g.food.location ∈ g.snake.headLocation :: g.snake.body
    · rw [if_pos hfood, if_pos hfood]
      cases g.food.setRandomWithoutColliding (g.snake.headLocation :: g.snake.body) rands with
      | none => rfl
      | some r =>
          simp only [Game.handleEvents, Outcome.done.injEq, and_true]
          rw [Game.foldl_handleEvent_prepareToGrowOnNextMove]
    · rw [if_neg hfood, if_neg hfood]
  · rw [if_pos hn, if_pos hn]

/-- The iteration with the heading requests first is `update` with the requests applied to
the state carried by an exit. -/
theorem Game.updateEventsFirst_eq (g : Game) (deltaTime : Nat) (rands : List Nat) :
    g.updateEventsFirst deltaTime rands =
      match g.update deltaTime rands with
      | Outcome.exited code atExit => Outcome.exited code atExit.handleEvents
      | Outcome.outOfSamples => Outcome.outOfSamples
      | Outcome.done g' rest => Outcome.done g' rest := by
  unfold Game.updateEventsFirst Game.update
  rw [Game.handleCollisions_handleEvents]
  cases g.handleCollisions rands <;> rfl

/-- C17: each loop iteration behaves as the sequence: apply the polled heading requests,
then resolve collisions (self-collision, then snake and food), then advance on the timer.
For every game state, event batch, elapsed time and random samples, `Game::update` (which
calls `handleCollisions` before `handleEvents`) returns exactly when the step that applies
the heading requests first returns, with the same resulting state and unread samples; it
exits exactly when that step exits, with the same code; it runs out of samples exactly when
that step does.  (The state in which `exit` is called differs by the heading requests,
which nothing reads afterwards.) -/
theorem update_eq_updateEventsFirst (g : Game) (deltaTime : Nat) (rands : List Nat) :
    (∀ g' rest, g.update deltaTime rands = Outcome.done g' rest ↔
        g.updateEventsFirst deltaTime rands = Outcome.done g' rest) ∧
      (∀ code, (∃ atExit, g.update deltaTime rands = Outcome.exited code atExit) ↔
        ∃ atExit, g.updateEventsFirst deltaTime rands = Outcome.exited code atExit) ∧
      (g.update deltaTime rands = Outcome.outOfSamples ↔
        g.updateEventsFirst deltaTime rands = Outcome.outOfSamples) ∧
      (∀ code atExit, g.update deltaTime rands = Outcome.exited code atExit →
        g.updateEventsFirst deltaTime rands = Outcome.exited code atExit.handleEvents) := by
  have h := Game.updateEventsFirst_eq g deltaTime rands
  cases hu : g.update deltaTime rands with
  | exited code atExit =>
      rw [hu] at h
      simp only at h
      rw [h]
      refine ⟨?_, ?_, ?_, ?_⟩
      · intro g' rest
        simp
      · intro c
        simp only [Outcome.exited.injEq]
        constructor
        · rintro ⟨st, hc, -⟩
          exact ⟨_, hc, rfl⟩
        · rintro ⟨st, hc, -⟩
          exact ⟨_, hc, rfl⟩
      · simp
      · intro c st hcs
        simp only [Outcome.exited.injEq] at hcs
        rw [hcs.1, hcs.2]
  | outOfSamples =>
      rw [hu] at h
      simp only at h
      rw [h]
      simp
  | done g1 rest1 =>
      rw [hu] at h
      simp only at h
      rw [h]
      simp

/-! ## Invariants of the snake -/

/-- After an advance the head lies in the grid. -/
theorem Snake.moveAndGrowIfSet_head_inGrid (s : Snake) :
    s.moveAndGrowIfSet.headLocation.inGrid := by
  rw [Snake.moveAndGrowIfSet_head]
  unfold Point.inGrid
  simp only
  omega

/-- From a head in the grid an advance leads to a toroidally adjacent cell. -/
theorem Snake.moveAndGrowIfSet_adjacent (s : Snake) (hh : s.headLocation.inGrid) :
    s.headLocation.toroidalAdjacent s.moveAndGrowIfSet.headLocation := by
  unfold Point.inGrid at hh
  rw [s.moveAndGrowIfSet_head_grid ⟨hh.1, hh.2.1⟩ hh.2.2]
  unfold Point.toroidalAdjacent
  cases s.direction <;> simp only
  · exact Or.inr ⟨trivial, by omega⟩
  · exact Or.inl ⟨trivial, by omega⟩
  · exact Or.inr ⟨trivial, by omega⟩
  · exact Or.inl ⟨trivial, by omega⟩

/-- The cells of body and head after an advance, in sequence: those before the advance
followed by the new head, without the oldest one unless a growth was pending. -/
theorem Snake.moveAndGrowIfSet_sequence (s : Snake) :
    s.moveAndGrowIfSet.body ++ [s.moveAndGrowIfSet.headLocation] =
      if s.toGrow then s.body ++ [s.headLocation, s.moveAndGrowIfSet.headLocation]
      else (s.body ++ [s.headLocation, s.moveAndGrowIfSet.headLocation]).tail := by
  rw [Snake.moveAndGrowIfSet_body]
  cases s.toGrow
  · cases s.body <;> simp
  · simp

/-- An advance keeps the chain of adjacent cells from the oldest body cell to the head. -/
theorem Snake.moveAndGrowIfSet_chain (s : Snake) (hh : s.headLocation.inGrid)
    (hc : List.Chain' Point.toroidalAdjacent (s.body ++ [s.headLocation])) :
    List.Chain' Point.toroidalAdjacent
      (s.moveAndGrowIfSet.body ++ [s.moveAndGrowIfSet.headLocation]) := by
  have hall : List.Chain' Point.toroidalAdjacent
      (s.body ++ [s.headLocation, s.moveAndGrowIfSet.headLocation]) :=
    List.chain'_append_cons_cons.2
      ⟨hc, s.moveAndGrowIfSet_adjacent hh, List.chain'_singleton _⟩
  rw [Snake.moveAndGrowIfSet_sequence]
  split
  · exact hall
  · exact hall.tail

/-- The invariants of the reachable snake states: all cells in the grid, consecutive cells
adjacent. -/
theorem Snake.Reachable.snake_invariants (s : Snake) (hr : s.Reachable) :
    s.headLocation.inGrid ∧ (∀ p ∈ s.body, p.inGrid) ∧
      List.Chain' Point.toroidalAdjacent (s.body ++ [s.headLocation]) := by
  induction hr with
  | init =>
      rw [Snake.new_start]
      refine ⟨by decide, by decide, ?_⟩
      simp only [List.cons_append, List.nil_append, List.chain'_cons, List.chain'_singleton,
        and_true]
      decide
  | heading s d _ ih =>
      have h : (s.trySetMovindDirection d).headLocation = s.headLocation ∧
          (s.trySetMovindDirection d).body = s.body := by
        obtain ⟨hd, b, dir, g⟩ := s
        cases d <;> cases dir <;>
          simp [Snake.trySetMovindDirection, Snake.setValidDirectionFrom]
      rw [h.1, h.2]
      exact ih
  | growth s _ ih => exact ih
  | advance s _ ih =>
      refine ⟨s.moveAndGrowIfSet_head_inGrid, ?_, s.moveAndGrowIfSet_chain ih.1 ih.2.2⟩
      intro p hp
      have hmem := s.moveAndGrowIfSet_body_sub.1 p hp
      rcases List.mem_cons.1 hmem with rfl | hb
      · exact ih.1
      · exact ih.2.1 p hb

/-- C18: the body trails the head by one historical position per segment: for every snake
state reachable from the freshly constructed snake by any sequence of
`trySetMovindDirection`, `prepareToGrowOnNextMove` and `moveAndGrowIfSet` calls, every two
consecutive cells of the sequence body (oldest to newest) followed by the head differ by
exactly one cell on exactly one axis, modulo the grid size 20. -/
theorem reachable_snake_trails (s : Snake) (hr : s.Reachable) :
    List.Chain' Point.toroidalAdjacent (s.body ++ [s.headLocation]) :=
  (Snake.Reachable.snake_invariants s hr).2.2

/-- Witness of C18: the starting snake after the request Up and one advance, head `(7,19)`
above the body `(1,0) .. (7,0)`; the last two cells are adjacent across the grid edge. -/
theorem reachable_snake_trails_witness :
    List.Chain' Point.toroidalAdjacent
      ([⟨1, 0⟩, ⟨2, 0⟩, ⟨3, 0⟩, ⟨4, 0⟩, ⟨5, 0⟩, ⟨6, 0⟩, ⟨7, 0⟩] ++ [(⟨7, 19⟩ : Point)]) := by
  have r : Snake.Reachable
      (Snake.mk ⟨7, 19⟩ [⟨1, 0⟩, ⟨2, 0⟩, ⟨3, 0⟩, ⟨4, 0⟩, ⟨5, 0⟩, ⟨6, 0⟩, ⟨7, 0⟩]
        Direction.UP false) := by
    have r0 := Snake.Reachable.advance _
      (Snake.Reachable.heading _ Direction.UP Snake.Reachable.init)
    rw [Snake.new_start] at r0
    exact r0
  exact reachable_snake_trails _ r

/-! ## Cells stay in the grid -/

/-- The cell that a stopping `setRandomWithoutColliding` leaves lies in the grid. -/
theorem Food.setRandomWithoutColliding_inGrid (f f' : Food) (other : List Point)
    (rands rest : List Nat) (h : f.setRandomWithoutColliding other rands = some (f', rest)) :
    f'.location.inGrid := by
  have hloc := Food.setRandomWithoutColliding_location other rands f
  rw [h, Option.map_some'] at hloc
  exact sampledCells_in_grid rands _ (List.mem_of_find?_eq_some hloc.symm)

/-- The snake of a pair reached by the four operations is a reachable snake, and the food
lies in the grid. -/
theorem Game.OpReachable.op_invariants (s : Snake) (f : Food) (hr : Game.OpReachable s f) :
    s.Reachable ∧ f.location.inGrid := by
  induction hr with
  | init => exact ⟨Snake.Reachable.init, by decide⟩
  | heading s f d _ ih => exact ⟨Snake.Reachable.heading s d ih.1, ih.2⟩
  | growth s f _ ih => exact ⟨Snake.Reachable.growth s ih.1, ih.2⟩
  | advance s f _ ih => exact ⟨Snake.Reachable.advance s ih.1, ih.2⟩
  | relocate s f f' other rands rest _ hrel ih =>
      exact ⟨ih.1, Food.setRandomWithoutColliding_inGrid f f' other rands rest hrel⟩

/-- A batch of heading requests is a sequence of heading operations. -/
theorem Game.OpReachable.foldl_handleEvent (es : List Event) (s : Snake) (f : Food)
    (hr : Game.OpReachable s f) : Game.OpReachable (es.foldl Game.handleEvent s) f := by
  induction es generalizing s with
  | nil => exact hr
  | cons e t ih =>
      rw [List.foldl_cons]
      apply ih
      obtain ⟨ty⟩ := e
      cases ty <;> exact Game.OpReachable.heading s f _ hr

/-- Every state that the loop of `Game::run` reaches is reached by the four operations. -/
theorem Game.Reachable.opReachable (g : Game) (hr : g.Reachable) :
    Game.OpReachable g.snake g.food := by
  induction hr with
  | init => exact Game.OpReachable.init
  | step g g' polled deltaTime rands rest _ hstep ih =>
      obtain ⟨g1, hc, hg'⟩ := (Game.update_done_iff _ g' deltaTime rands rest).1 hstep
      have h1 : Game.OpReachable g1.snake g1.food := by
        obtain ⟨-, -, -, -, -, -, -, hcase⟩ := Game.handleCollisions_done _ g1 rands rest hc
        rcases hcase with ⟨-, hs, hrel⟩ | ⟨-, hg, -⟩
        · rw [hs]
          exact Game.OpReachable.relocate _ g.food g1.food _ rands rest
            (Game.OpReachable.growth g.snake g.food ih) hrel
        · rw [hg]
          exact ih
      have h2 : Game.OpReachable g1.handleEvents.snake g1.handleEvents.food :=
        Game.OpReachable.foldl_handleEvent g1.raisedEvents g1.snake g1.food h1
      have hm := Game.moveOnTimer_cases g1.handleEvents deltaTime
      rw [hg', hm.1]
      rcases hm.2.2 with hs | hs
      · rw [hs]
        exact Game.OpReachable.advance _ _ h2
      · rw [hs]
        exact h2

/-- C19: every cell stays inside the grid: in every state reachable from the initial game
(snake constructed with the configured length 7, food at `(4,4)`) by any sequence of heading
requests, growth requests, advances and food relocations, the snake's head, every body cell
and the food cell satisfy `0 <= x < 20` and `0 <= y < 20`. -/
theorem reachable_cells_in_grid (s : Snake) (f : Food) (hr : Game.OpReachable s f) :
    (0 ≤ s.headLocation.x ∧ s.headLocation.x < 20 ∧
        0 ≤ s.headLocation.y ∧ s.headLocation.y < 20) ∧
      (∀ p ∈ s.body, 0 ≤ p.x ∧ p.x < 20 ∧ 0 ≤ p.y ∧ p.y < 20) ∧
      (0 ≤ f.location.x ∧ f.location.x < 20 ∧ 0 ≤ f.location.y ∧ f.location.y < 20) :=
  have h := Game.OpReachable.op_invariants s f hr
  have hs := Snake.Reachable.snake_invariants s h.1
  ⟨hs.1, hs.2.1, h.2⟩

/-- Witness of C19: from the initial game, the request Up, one advance and a relocation of
the food with the samples `39, 59`: head `(7,19)`, body `(1,0) .. (7,0)`, food `(19,19)`,
all in the grid. -/
theorem reachable_cells_in_grid_witness :
    ((0 : Int) ≤ 7 ∧ (7 : Int) < 20 ∧ (0 : Int) ≤ 19 ∧ (19 : Int) < 20) ∧
      (∀ p ∈ [(⟨1, 0⟩ : Point), ⟨2, 0⟩, ⟨3, 0⟩, ⟨4, 0⟩, ⟨5, 0⟩, ⟨6, 0⟩, ⟨7, 0⟩],
        0 ≤ p.x ∧ p.x < 20 ∧ 0 ≤ p.y ∧ p.y < 20) ∧
      ((0 : Int) ≤ 19 ∧ (19 : Int) < 20 ∧ (0 : Int) ≤ 19 ∧ (19 : Int) < 20) := by
  have r : Game.OpReachable
      (Snake.mk ⟨7, 19⟩ [⟨1, 0⟩, ⟨2, 0⟩, ⟨3, 0⟩, ⟨4, 0⟩, ⟨5, 0⟩, ⟨6, 0⟩, ⟨7, 0⟩]
        Direction.UP false) ⟨⟨19, 19⟩⟩ := by
    have r0 := Game.OpReachable.relocate _ _ ⟨⟨19, 19⟩⟩ [] [39, 59] []
      (Game.OpReachable.advance _ _
        (Game.OpReachable.heading _ _ Direction.UP Game.OpReachable.init))
      (by decide)
    rw [Game.new_evaluated] at r0
    exact r0
  exact reachable_cells_in_grid _ _ r

/-! ## Growth is not dropped -/

/-- C20: no growth is dropped by the boolean flag in the game loop: in every game state
reachable from the initial game by `update` steps, at the start of the next `update`
(after `getEvents`, whatever was polled), if `toGrow` is set then the food cell equals no
snake cell, so the pairwise test of snake and food is false and a returning
`handleCollisions` leaves the state as it is, without calling `prepareToGrowOnNextMove`;
and the food never lies on a body cell. -/
theorem reachable_no_dropped_growth (g : Game) (hr : g.Reachable) (polled : List Event) :
    ((g.getEvents polled).snake.toGrow = true →
        (g.getEvents polled).food.location ∉ (g.getEvents polled).snake.getCollisionGeometry ∧
          Collision.didCollide (g.getEvents polled).snake.getCollisionGeometry
            (g.getEvents polled).food.getCollisionGeometry = false ∧
          ∀ rands g' rest,
            (g.getEvents polled).handleCollisions rands = Outcome.done g' rest →
              g' = g.getEvents polled) ∧
      (g.getEvents polled).food.location ∉ (g.getEvents polled).snake.body := by
  have hinv := Game.Reachable.loop_invariants g hr
  refine ⟨?_, hinv.2.1⟩
  intro hg
  have hfree : (g.getEvents polled).food.location ∉
      (g.getEvents polled).snake.headLocation :: (g.getEvents polled).snake.body :=
    hinv.2.2.1 hg
  refine ⟨by rw [Snake.getCollisionGeometry_eq]; exact hfree, ?_, ?_⟩
  · rw [← Bool.not_eq_true]
    exact fun hc => hfree ((Collision.didCollide_snake_food _ _).1 hc)
  · intro rands g' rest hc
    obtain ⟨-, -, -, -, -, -, -, hcase⟩ := Game.handleCollisions_done _ g' rands rest hc
    rcases hcase with ⟨hf, -, -⟩ | ⟨-, hg', -⟩
    · exact absurd hf hfree
    · exact hg'

/-- Witness of C20: fifteen iterations from the initial game: the request Down, four advances
down, the request Left, three advances left onto the food at `(4,4)`, then an iteration
without advance in which the food is found, the flag is set and the samples `4, 4, 10, 10`
move the food to `(10,10)`.  In the state reached the flag is set and the food is off the
snake. -/
theorem reachable_no_dropped_growth_witness :
    (Game.mk ⟨⟨4, 4⟩, [⟨7, 0⟩, ⟨7, 1⟩, ⟨7, 2⟩, ⟨7, 3⟩, ⟨7, 4⟩, ⟨6, 4⟩, ⟨5, 4⟩], Direction.LEFT, true⟩ ⟨⟨10, 10⟩⟩ [] 50).snake.toGrow = true ∧
      (Game.mk ⟨⟨4, 4⟩, [⟨7, 0⟩, ⟨7, 1⟩, ⟨7, 2⟩, ⟨7, 3⟩, ⟨7, 4⟩, ⟨6, 4⟩, ⟨5, 4⟩], Direction.LEFT, true⟩ ⟨⟨10, 10⟩⟩ [] 50).food.location ∉
        (Game.mk ⟨⟨4, 4⟩, [⟨7, 0⟩, ⟨7, 1⟩, ⟨7, 2⟩, ⟨7, 3⟩, ⟨7, 4⟩, ⟨6, 4⟩, ⟨5, 4⟩], Direction.LEFT, true⟩ ⟨⟨10, 10⟩⟩ [] 50).snake.getCollisionGeometry := by
  have r1 : Game.Reachable
      (Game.mk ⟨⟨7, 0⟩, [⟨0, 0⟩, ⟨1, 0⟩, ⟨2, 0⟩, ⟨3, 0⟩, ⟨4, 0⟩, ⟨5, 0⟩, ⟨6, 0⟩], Direction.DOWN, false⟩ ⟨⟨4, 4⟩⟩ [] 50) :=
    Game.Reachable.step Game.new _ [⟨EventType.PRESSED_DOWN_KEY⟩] 50 [] [] Game.Reachable.init (by rw [Game.new_evaluated]; decide)
  have r2 : Game.Reachable
      (Game.mk ⟨⟨7, 1⟩, [⟨1, 0⟩, ⟨2, 0⟩, ⟨3, 0⟩, ⟨4, 0⟩, ⟨5, 0⟩, ⟨6, 0⟩, ⟨7, 0⟩], Direction.DOWN, false⟩ ⟨⟨4, 4⟩⟩ [] 0) :=
    Game.Reachable.step _ _ [] 16 [] [] r1 (by decide)
  have r3 : Game.Reachable
      (Game.mk ⟨⟨7, 1⟩, [⟨1, 0⟩, ⟨2, 0⟩, ⟨3, 0⟩, ⟨4, 0⟩, ⟨5, 0⟩, ⟨6, 0⟩, ⟨7, 0⟩], Direction.DOWN, false⟩ ⟨⟨4, 4⟩⟩ [] 50) :=
    Game.Reachable.step _ _ [] 50 [] [] r2 (by decide)
  have r4 : Game.Reachable
      (Game.mk ⟨⟨7, 2⟩, [⟨2, 0⟩, ⟨3, 0⟩, ⟨4, 0⟩, ⟨5, 0⟩, ⟨6, 0⟩, ⟨7, 0⟩, ⟨7, 1⟩], Direction.DOWN, false⟩ ⟨⟨4, 4⟩⟩ [] 0) :=
    Game.Reachable.step _ _ [] 16 [] [] r3 (by decide)
  have r5 : Game.Reachable
      (Game.mk ⟨⟨7, 2⟩, [⟨2, 0⟩, ⟨3, 0⟩, ⟨4, 0⟩, ⟨5, 0⟩, ⟨6, 0⟩, ⟨7, 0⟩, ⟨7, 1⟩], Direction.DOWN, false⟩ ⟨⟨4, 4⟩⟩ [] 50) :=
    Game.Reachable.step _ _ [] 50 [] [] r4 (by decide)
  have r6 : Game.Reachable
      (Game.mk ⟨⟨7, 3⟩, [⟨3, 0⟩, ⟨4, 0⟩, ⟨5, 0⟩, ⟨6, 0⟩, ⟨7, 0⟩, ⟨7, 1⟩, ⟨7, 2⟩], Direction.DOWN, false⟩ ⟨⟨4, 4⟩⟩ [] 0) :=
    Game.Reachable.step _ _ [] 16 [] [] r5 (by decide)
  have r7 : Game.Reachable
      (Game.mk ⟨⟨7, 3⟩, [⟨3, 0⟩, ⟨4, 0⟩, ⟨5, 0⟩, ⟨6, 0⟩, ⟨7, 0⟩, ⟨7, 1⟩, ⟨7, 2⟩], Direction.DOWN, false⟩ ⟨⟨4, 4⟩⟩ [] 50) :=
    Game.Reachable.step _ _ [] 50 [] [] r6 (by decide)
  have r8 : Game.Reachable
      (Game.mk ⟨⟨7, 4⟩, [⟨4, 0⟩, ⟨5, 0⟩, ⟨6, 0⟩, ⟨7, 0⟩, ⟨7, 1⟩, ⟨7, 2⟩, ⟨7, 3⟩], Direction.DOWN, false⟩ ⟨⟨4, 4⟩⟩ [] 0) :=
    Game.Reachable.step _ _ [] 16 [] [] r7 (by decide)
  have r9 : Game.Reachable
      (Game.mk ⟨⟨7, 4⟩, [⟨4, 0⟩, ⟨5, 0⟩, ⟨6, 0⟩, ⟨7, 0⟩, ⟨7, 1⟩, ⟨7, 2⟩, ⟨7, 3⟩], Direction.LEFT, false⟩ ⟨⟨4, 4⟩⟩ [] 50) :=
    Game.Reachable.step _ _ [⟨EventType.PRESSED_LEFT_KEY⟩] 50 [] [] r8 (by decide)
  have r10 : Game.Reachable
      (Game.mk ⟨⟨6, 4⟩, [⟨5, 0⟩, ⟨6, 0⟩, ⟨7, 0⟩, ⟨7, 1⟩, ⟨7, 2⟩, ⟨7, 3⟩, ⟨7, 4⟩], Direction.LEFT, false⟩ ⟨⟨4, 4⟩⟩ [] 0) :=
    Game.Reachable.step _ _ [] 16 [] [] r9 (by decide)
  have r11 : Game.Reachable
      (Game.mk ⟨⟨6, 4⟩, [⟨5, 0⟩, ⟨6, 0⟩, ⟨7, 0⟩, ⟨7, 1⟩, ⟨7, 2⟩, ⟨7, 3⟩, ⟨7, 4⟩], Direction.LEFT, false⟩ ⟨⟨4, 4⟩⟩ [] 50) :=
    Game.Reachable.step _ _ [] 50 [] [] r10 (by decide)
  have r12 : Game.Reachable
      (Game.mk ⟨⟨5, 4⟩, [⟨6, 0⟩, ⟨7, 0⟩, ⟨7, 1⟩, ⟨7, 2⟩, ⟨7, 3⟩, ⟨7, 4⟩, ⟨6, 4⟩], Direction.LEFT, false⟩ ⟨⟨4, 4⟩⟩ [] 0) :=
    Game.Reachable.step _ _ [] 16 [] [] r11 (by decide)
  have r13 : Game.Reachable
      (Game.mk ⟨⟨5, 4⟩, [⟨6, 0⟩, ⟨7, 0⟩, ⟨7, 1⟩, ⟨7, 2⟩, ⟨7, 3⟩, ⟨7, 4⟩, ⟨6, 4⟩], Direction.LEFT, false⟩ ⟨⟨4, 4⟩⟩ [] 50) :=
    Game.Reachable.step _ _ [] 50 [] [] r12 (by decide)
  have r14 : Game.Reachable
      (Game.mk ⟨⟨4, 4⟩, [⟨7, 0⟩, ⟨7, 1⟩, ⟨7, 2⟩, ⟨7, 3⟩, ⟨7, 4⟩, ⟨6, 4⟩, ⟨5, 4⟩], Direction.LEFT, false⟩ ⟨⟨4, 4⟩⟩ [] 0) :=
    Game.Reachable.step _ _ [] 16 [] [] r13 (by decide)
  have r15 : Game.Reachable
      (Game.mk ⟨⟨4, 4⟩, [⟨7, 0⟩, ⟨7, 1⟩, ⟨7, 2⟩, ⟨7, 3⟩, ⟨7, 4⟩, ⟨6, 4⟩, ⟨5, 4⟩], Direction.LEFT, true⟩ ⟨⟨10, 10⟩⟩ [] 50) :=
    Game.Reachable.step _ _ [] 50 [4, 4, 10, 10] [] r14 (by decide)
  exact ⟨rfl, ((reachable_no_dropped_growth _ r15 []).1 rfl).1⟩

/-! ## Reversal of the heading within one tick -/

/-- C6 (a defect of the code): the guards of `setValidDirectionFrom` are there to keep the
head from turning back onto the snake, but they compare a request with the heading left by
the request before it, not with the heading of the last advance.  On the starting game
(heading Right, newest body cell `(6,0)`) the batch Up, Left makes `handleEvents` leave the
heading Left, the reverse of Right; the next advance puts the head on `(6,0)` and the
self-collision test is true.  The same happens with two polls of one request each inside
one tick: the requests Up (50 ms elapsed, no advance) and Left (then the advance) lead the
loop to a state with the head on the body cell `(6,0)`, on which the next `update` exits
with code 1. -/
theorem handleEvents_batch_reverses :
    Game.new.snake.direction = Direction.RIGHT ∧
      Game.new.snake.body.getLast? = some ⟨6, 0⟩ ∧
      (Game.handleEvents { Game.new with
          raisedEvents := [⟨EventType.PRESSED_UP_KEY⟩, ⟨EventType.PRESSED_LEFT_KEY⟩] }
        ).snake.direction = Game.new.snake.direction.reverse ∧
      (Game.handleEvents { Game.new with
          raisedEvents := [⟨EventType.PRESSED_UP_KEY⟩, ⟨EventType.PRESSED_LEFT_KEY⟩] }
        ).snake.moveAndGrowIfSet.headLocation = ⟨6, 0⟩ ∧
      Collision.didCollideSelf (Game.handleEvents { Game.new with
          raisedEvents := [⟨EventType.PRESSED_UP_KEY⟩, ⟨EventType.PRESSED_LEFT_KEY⟩] }
        ).snake.moveAndGrowIfSet.getCollisionGeometry = true ∧
      (Game.new.getEvents [⟨EventType.PRESSED_UP_KEY⟩]).update 50 [] =
        Outcome.done
          (Game.mk ⟨⟨7, 0⟩, [⟨0, 0⟩, ⟨1, 0⟩, ⟨2, 0⟩, ⟨3, 0⟩, ⟨4, 0⟩, ⟨5, 0⟩, ⟨6, 0⟩],
            Direction.UP, false⟩ ⟨⟨4, 4⟩⟩ [] 50) [] ∧
      ((Game.mk ⟨⟨7, 0⟩, [⟨0, 0⟩, ⟨1, 0⟩, ⟨2, 0⟩, ⟨3, 0⟩, ⟨4, 0⟩, ⟨5, 0⟩, ⟨6, 0⟩],
            Direction.UP, false⟩ ⟨⟨4, 4⟩⟩ [] 50).getEvents
          [⟨EventType.PRESSED_LEFT_KEY⟩]).update 16 [] =
        Outcome.done
          (Game.mk ⟨⟨6, 0⟩, [⟨1, 0⟩, ⟨2, 0⟩, ⟨3, 0⟩, ⟨4, 0⟩, ⟨5, 0⟩, ⟨6, 0⟩, ⟨7, 0⟩],
            Direction.LEFT, false⟩ ⟨⟨4, 4⟩⟩ [] 0) [] ∧
      ((Game.mk ⟨⟨6, 0⟩, [⟨1, 0⟩, ⟨2, 0⟩, ⟨3, 0⟩, ⟨4, 0⟩, ⟨5, 0⟩, ⟨6, 0⟩, ⟨7, 0⟩],
            Direction.LEFT, false⟩ ⟨⟨4, 4⟩⟩ [] 0).getEvents []).update 16 [] =
        Outcome.exited 1
          (Game.mk ⟨⟨6, 0⟩, [⟨1, 0⟩, ⟨2, 0⟩, ⟨3, 0⟩, ⟨4, 0⟩, ⟨5, 0⟩, ⟨6, 0⟩, ⟨7, 0⟩],
            Direction.LEFT, false⟩ ⟨⟨4, 4⟩⟩ [] 0) := by
  rw [Game.new_evaluated]
  decide

end SnakeGame
